import Mathlib

/-!
Verification of the IPS crash-report decoder and section builder
(`ips-parser-core.js`, `structured-parser.js`).

The JavaScript source is shallowly embedded: JS numbers are modelled as
`Int` (all values handled by the program are integers), JS strings as
`String`, absent object fields as `Option`, the DOM as a small tree type,
and code that can throw as functions into `Except String`.
-/

/-! ## JavaScript string and number primitives -/

/-- JS `String.prototype.padStart(n, c)` (single-character pad). -/
def jsPadStart (s : String) (n : Nat) (c : Char) : String :=
  String.mk (List.replicate (n - s.length) c) ++ s

/-- JS `String.prototype.padEnd(n, c)` (single-character pad). -/
def jsPadEnd (s : String) (n : Nat) (c : Char) : String :=
  s ++ String.mk (List.replicate (n - s.length) c)

/-- Hexadecimal digits of a natural number, lowercase, as produced by
JS `Number.prototype.toString(16)` on a non-negative integer. -/
def natToHex (n : Nat) : String :=
  (Nat.toDigits 16 n).asString

/-- JS `Number.prototype.toString(16)` on an integer
(negative values render as a leading minus sign). -/
def intToHex (i : Int) : String :=
  if i < 0 then "-" ++ natToHex i.natAbs else natToHex i.natAbs

/-- JS `x || d` for an optional string field: `undefined` and `""` are falsy. -/
def jsOrStr : Option String → String → String
  | some s, d => if s = "" then d else s
  | none, d => d

/-- JS `x || d` for an optional numeric field: `undefined` and `0` are falsy. -/
def jsOrInt : Option Int → Int → Int
  | some n, d => if n = 0 then d else n
  | none, d => d

/-- JS truthiness of an optional string (`if (x)` on a string field). -/
def strTruthy : Option String → Bool
  | some s => s ≠ ""
  | none => false

/-- Emit `f s` when the optional string field is truthy, else nothing
(the JS `if (x) \x7b out += ... \x7d` pattern). -/
def ifStr (o : Option String) (f : String → String) : String :=
  match o with
  | some s => if s = "" then "" else f s
  | none => ""

/-- Emit `f v` when the field is present (the JS `if (x !== undefined)` pattern). -/
def ifSome {α : Type} (o : Option α) (f : α → String) : String :=
  match o with
  | some v => f v
  | none => ""

/-! ## JSON values and `JSON.parse`

`JSON.parse` is modelled by an executable recursive-descent parser.
Numbers keep their source lexeme: the program never computes with a
JSON number taken from the metadata line, it only interpolates it into
an error message. -/

inductive Json where
  | null
  | bool (b : Bool)
  | num (lexeme : String)
  | str (s : String)
  | arr (elements : List Json)
  | obj (fields : List (String × Json))
deriving Repr

/-- JSON whitespace. -/
def jsonWs (c : Char) : Bool :=
  c = ' ' || c = '\t' || c = '\n' || c = '\r'

/-- Skip leading JSON whitespace. -/
def skipWs : List Char → List Char
  | c :: cs => if jsonWs c then skipWs cs else c :: cs
  | [] => []

/-- Value of a hexadecimal digit. -/
def hexVal (c : Char) : Option Nat :=
  if '0' ≤ c ∧ c ≤ '9' then some (c.toNat - '0'.toNat)
  else if 'a' ≤ c ∧ c ≤ 'f' then some (c.toNat - 'a'.toNat + 10)
  else if 'A' ≤ c ∧ c ≤ 'F' then some (c.toNat - 'A'.toNat + 10)
  else none

/-- Single-character JSON string escapes. -/
def escChar (c : Char) : Option Char :=
  if c = '"' then some '"'
  else if c = '\\' then some '\\'
  else if c = '/' then some '/'
  else if c = 'b' then some (Char.ofNat 8)
  else if c = 'f' then some (Char.ofNat 12)
  else if c = 'n' then some '\n'
  else if c = 'r' then some '\r'
  else if c = 't' then some '\t'
  else none

def errUnexpectedEnd : String := "Unexpected end of JSON input"
def errBadToken : String := "Unexpected token in JSON"

/-- Parse the body of a JSON string literal (the opening quote already
consumed), returning the decoded string and the remaining input. -/
def parseStringBody : Nat → List Char → Except String (String × List Char)
  | 0, _ => .error errUnexpectedEnd
  | _ + 1, [] => .error errUnexpectedEnd
  | fuel + 1, c :: cs =>
    if c = '"' then .ok ("", cs)
    else if c = '\\' then
      match cs with
      | [] => .error errUnexpectedEnd
      | e :: cs2 =>
        if e = 'u' then
          match cs2 with
          | h1 :: h2 :: h3 :: h4 :: cs3 =>
            match hexVal h1, hexVal h2, hexVal h3, hexVal h4 with
            | some a, some b, some c3, some d => do
              let (s, rest) ← parseStringBody fuel cs3
              .ok (String.mk [Char.ofNat (a * 4096 + b * 256 + c3 * 16 + d)] ++ s, rest)
            | _, _, _, _ => .error errBadToken
          | _ => .error errUnexpectedEnd
        else
          match escChar e with
          | some ch => do
            let (s, rest) ← parseStringBody fuel cs2
            .ok (String.mk [ch] ++ s, rest)
          | none => .error errBadToken
    else if c.toNat < 32 then .error errBadToken
    else do
      let (s, rest) ← parseStringBody fuel cs
      .ok (String.mk [c] ++ s, rest)

/-- Scan the optional fraction part of a JSON number. -/
def parseFracPart (cs : List Char) : Except String (List Char × List Char) :=
  match cs with
  | '.' :: t =>
    let ds := t.takeWhile Char.isDigit
    if ds.isEmpty then .error errBadToken
    else .ok ('.' :: ds, t.dropWhile Char.isDigit)
  | _ => .ok ([], cs)

/-- Scan the optional exponent part of a JSON number. -/
def parseExpPart (cs : List Char) : Except String (List Char × List Char) :=
  match cs with
  | e :: t =>
    if e = 'e' ∨ e = 'E' then
      let (sg, t2) := match t with
        | '+' :: t3 => (['+'], t3)
        | '-' :: t3 => (['-'], t3)
        | _ => ([], t)
      let ds := t2.takeWhile Char.isDigit
      if ds.isEmpty then .error errBadToken
      else .ok (e :: (sg ++ ds), t2.dropWhile Char.isDigit)
    else .ok ([], cs)
  | [] => .ok ([], cs)

/-- Scan a JSON number lexeme: `-? (0 | [1-9][0-9]*) frac? exp?`. -/
def parseNumberLex (cs : List Char) : Except String (String × List Char) :=
  let (sign, cs1) := match cs with
    | '-' :: t => ("-", t)
    | _ => ("", cs)
  match cs1 with
  | [] => .error errUnexpectedEnd
  | d :: _ =>
    if ¬ d.isDigit then .error errBadToken
    else
      let intPart := cs1.takeWhile Char.isDigit
      let rest1 := cs1.dropWhile Char.isDigit
      if d = '0' ∧ intPart.length > 1 then .error errBadToken
      else do
        let (fracPart, rest2) ← parseFracPart rest1
        let (expPart, rest3) ← parseExpPart rest2
        .ok (sign ++ String.mk (intPart ++ fracPart ++ expPart), rest3)

mutual

/-- Recursive-descent JSON value parser (fuel-indexed; the fuel is an
upper bound on nesting depth, at least the input length at top level). -/
def parseValue : Nat → List Char → Except String (Json × List Char)
  | 0, _ => .error errBadToken
  | fuel + 1, cs =>
    match skipWs cs with
    | [] => .error errUnexpectedEnd
    | c :: rest =>
      if c = '"' then do
        let (s, r) ← parseStringBody (rest.length + 1) rest
        .ok (.str s, r)
      else if c = '{' then
        match skipWs rest with
        | '}' :: r2 => .ok (.obj [], r2)
        | r1 => parseMembers fuel r1 []
      else if c = '[' then
        match skipWs rest with
        | ']' :: r2 => .ok (.arr [], r2)
        | r1 => parseElements fuel r1 []
      else
        match c :: rest with
        | 't' :: 'r' :: 'u' :: 'e' :: r => .ok (.bool true, r)
        | 'f' :: 'a' :: 'l' :: 's' :: 'e' :: r => .ok (.bool false, r)
        | 'n' :: 'u' :: 'l' :: 'l' :: r => .ok (.null, r)
        | cs2 =>
          if c = '-' ∨ c.isDigit then do
            let (lex, r) ← parseNumberLex cs2
            .ok (.num lex, r)
          else .error errBadToken

/-- Parse the members of a JSON object, positioned at the first
character of a key string (after any whitespace). -/
def parseMembers : Nat → List Char → List (String × Json) →
    Except String (Json × List Char)
  | 0, _, _ => .error errBadToken
  | fuel + 1, cs, acc =>
    match cs with
    | '"' :: rest => do
      let (k, r1) ← parseStringBody (rest.length + 1) rest
      match skipWs r1 with
      | ':' :: r3 => do
        let (v, r4) ← parseValue fuel (skipWs r3)
        match skipWs r4 with
        | ',' :: r6 => parseMembers fuel (skipWs r6) (acc ++ [(k, v)])
        | '}' :: r6 => .ok (.obj (acc ++ [(k, v)]), r6)
        | _ => .error errBadToken
      | _ => .error errBadToken
    | _ => .error errBadToken

/-- Parse the elements of a JSON array, positioned at the first
character of an element. -/
def parseElements : Nat → List Char → List Json →
    Except String (Json × List Char)
  | 0, _, _ => .error errBadToken
  | fuel + 1, cs, acc => do
    let (v, r1) ← parseValue fuel cs
    match skipWs r1 with
    | ',' :: r2 => parseElements fuel (skipWs r2) (acc ++ [v])
    | ']' :: r2 => .ok (.arr (acc ++ [v]), r2)
    | _ => .error errBadToken

end

/-- JS `JSON.parse`: parse a complete JSON document, rejecting
trailing non-whitespace. -/
def jsonParse (s : String) : Except String Json :=
  let cs := s.toList
  match parseValue (cs.length + 1) cs with
  | .error e => .error e
  | .ok (v, rest) =>
    if (skipWs rest).isEmpty then .ok v else .error errBadToken

example : jsonParse "\x7b\"bug_type\":\"309\"\x7d" =
    .ok (.obj [("bug_type", .str "309")]) := by rfl
example : jsonParse "\x7b\x7d" = .ok (.obj []) := by rfl
example : jsonParse "bad" = .error errBadToken := by rfl
example : jsonParse "[1, 2.5e3, null]" =
    .ok (.arr [.num "1", .num "2.5e3", .null]) := by rfl

/-! ## JS semantics over parsed JSON values -/

/-- JS truthiness of a JSON value. A number is falsy exactly when its
significand (the digits before any exponent marker) is all zeros. -/
def Json.truthy : Json → Bool
  | .null => false
  | .bool b => b
  | .num lex => (lex.toList.takeWhile (fun c => c ≠ 'e' ∧ c ≠ 'E')).any
      (fun c => '1' ≤ c ∧ c ≤ '9')
  | .str s => s ≠ ""
  | .arr _ => true
  | .obj _ => true

/-- JS string conversion of a JSON value, fuel-indexed so that it
reduces definitionally. The `Bool` is true when converting an element
inside an array join, where `null` renders as the empty string. -/
def Json.interpAux : Nat → Bool → Json → String
  | _, true, .null => ""
  | _, false, .null => "null"
  | _, _, .bool b => if b then "true" else "false"
  | _, _, .num lex => lex
  | _, _, .str s => s
  | _, _, .obj _ => "[object Object]"
  | _, _, .arr [] => ""
  | fuel + 1, _, .arr [x] => Json.interpAux fuel true x
  | fuel + 1, _, .arr (x :: y :: xs) =>
    Json.interpAux fuel true x ++ "," ++ Json.interpAux fuel false (.arr (y :: xs))
  | 0, _, .arr _ => ""

/-- JS template-literal interpolation of a JSON value (`String(v)`
semantics: objects print as `[object Object]`, arrays join their
elements with commas). The fuel bounds array nesting depth; the model
is exact for values nested less than 1000 arrays deep, which covers
every value this program ever interpolates. -/
def Json.interp (j : Json) : String :=
  Json.interpAux 1000 false j

/-- Interpolation of a possibly-`undefined` JS value. -/
def jsInterpOpt : Option Json → String
  | some v => v.interp
  | none => "undefined"

/-- Last-wins association lookup: JS `JSON.parse` keeps the last
occurrence of a duplicated key. -/
def lookupLast (fs : List (String × Json)) (k : String) : Option Json :=
  fs.foldl (fun acc p => if p.1 = k then some p.2 else acc) none

/-- JS property read `v[k]`: throws a `TypeError` on `null`, yields
`undefined` on non-objects, looks the key up on objects. -/
def Json.getProp : Json → String → Except String (Option Json)
  | .null, p => .error ("Cannot read properties of null (reading " ++ p ++ ")")
  | .obj fs, p => .ok (lookupLast fs p)
  | _, _ => .ok none

/-! ## The `IPSParser` / `StructuredIPSParser` decode step

Both classes share the same `parse` body (`ips-parser-core.js` lines
11-35 and `structured-parser.js` lines 11-35): it is embedded once as a
state transformer over the two instance fields it assigns. -/

/-- The whitespace removed by JS `String.prototype.trim`
(restricted to the ASCII characters that occur in `.ips` text). -/
def jsWhitespace (c : Char) : Bool :=
  c = ' ' || c = '\t' || c = '\n' || c = '\r' || c = Char.ofNat 11 || c = Char.ofNat 12

/-- JS `String.prototype.trim`. -/
def jsTrim (s : String) : String :=
  String.mk (((s.toList.dropWhile jsWhitespace).reverse.dropWhile jsWhitespace).reverse)

/-- Split a character list on a separator character, JS
`String.prototype.split` style (never empty; keeps empty pieces). -/
def splitOnChar (sep : Char) : List Char → List (List Char)
  | [] => [[]]
  | x :: xs =>
    let r := splitOnChar sep xs
    if x = sep then [] :: r
    else (x :: r.headD []) :: r.tail

/-- JS `s.split('\n')`. -/
def jsSplitNewline (s : String) : List String :=
  (splitOnChar '\n' s.toList).map String.mk

/-- JS `Array.prototype.join('\n')`. -/
def jsJoinNewline : List String → String
  | [] => ""
  | [x] => x
  | x :: y :: xs => x ++ "\n" ++ jsJoinNewline (y :: xs)

/-- `Array.prototype.join('')` (string concatenation of a list). -/
def sjoin : List String → String
  | [] => ""
  | s :: rest => s ++ sjoin rest

/-- The strict comparison `metadata.bug_type === "309"`. -/
def isBugType309 : Option Json → Bool
  | some (Json.str s) => s = "309"
  | _ => false

/-- The mutable instance fields `this.metadata` / `this.report`
(both `null` after the constructor). -/
structure IPSParserState where
  metadata : Option Json := none
  report : Option Json := none
deriving Repr

/-- `IPSParser.prototype.parse` as a state transformer: returns the
updated instance fields and either `true` or the thrown error message.
Every throw inside the `try` block is caught and rethrown with the
`Failed to parse IPS file: ` prefix. -/
def IPSParser.parse (ipsContent : String) (st : IPSParserState) :
    IPSParserState × Except String Bool :=
  let lines := jsSplitNewline (jsTrim ipsContent)
  if lines.length < 2 then
    (st, .error "Failed to parse IPS file: Invalid IPS file format. Expected at least 2 lines (metadata + report).")
  else
    match jsonParse (lines.getD 0 "") with
    | .error e => (st, .error ("Failed to parse IPS file: " ++ e))
    | .ok m =>
      let st1 := { st with metadata := some m }
      match jsonParse (jsJoinNewline (lines.drop 1)) with
      | .error e => (st1, .error ("Failed to parse IPS file: " ++ e))
      | .ok r =>
        let st2 := { st1 with report := some r }
        match m.getProp "bug_type" with
        | .error e => (st2, .error ("Failed to parse IPS file: " ++ e))
        | .ok v =>
          if isBugType309 v then (st2, .ok true)
          else
            (st2, .error ("Failed to parse IPS file: Not a crash report (bug_type: "
              ++ jsInterpOpt v ++ "). Expected bug_type \"309\"."))

example :
    (IPSParser.parse "\x7b\"bug_type\":\"309\"\x7d\n\x7b\x7d" {}).2 = .ok true := by rfl
example :
    (IPSParser.parse "single line only" {}).2 =
      .error "Failed to parse IPS file: Invalid IPS file format. Expected at least 2 lines (metadata + report)." := by
  rfl
example :
    (IPSParser.parse "\x7b\"bug_type\":\"1\"\x7d\n\x7b\x7d" {}).2 =
      .error "Failed to parse IPS file: Not a crash report (bug_type: 1). Expected bug_type \"309\"." := by
  rfl

/-! ## The typed `Report` data model

A well-typed `Report` is a JS object of the shape the formatters expect:
optional fields are `Option`s, fields the schema always provides
(image `name`, frame `imageIndex`/`imageOffset`, thread `id`, register
`value`) are plain values. All JS numbers in a report are integers. -/

/-- One register value `\x7b value, description? \x7d`. -/
structure RegObject where
  value : Int := 0
  description : Option String := none
deriving Repr, DecidableEq

/-- A `threadState` object: `flavor` plus per-architecture register
fields, each absent or a `RegObject`. -/
structure ThreadState where
  flavor : Option String := none
  x : Option (List RegObject) := none
  fp : Option RegObject := none
  lr : Option RegObject := none
  sp : Option RegObject := none
  pc : Option RegObject := none
  cpsr : Option RegObject := none
  far : Option RegObject := none
  esr : Option RegObject := none
  rax : Option RegObject := none
  rbx : Option RegObject := none
  rcx : Option RegObject := none
  rdx : Option RegObject := none
  rdi : Option RegObject := none
  rsi : Option RegObject := none
  rbp : Option RegObject := none
  rsp : Option RegObject := none
  r8 : Option RegObject := none
  r9 : Option RegObject := none
  r10 : Option RegObject := none
  r11 : Option RegObject := none
  r12 : Option RegObject := none
  r13 : Option RegObject := none
  r14 : Option RegObject := none
  r15 : Option RegObject := none
  rip : Option RegObject := none
  rflags : Option RegObject := none
  cr2 : Option RegObject := none
  cpu : Option RegObject := none
  err : Option RegObject := none
  trap : Option RegObject := none
deriving Repr, DecidableEq

/-- A stack frame. -/
structure Frame where
  imageIndex : Int := 0
  imageOffset : Int := 0
  symbol : Option String := none
  symbolLocation : Option Int := none
deriving Repr, DecidableEq

/-- A `usedImages` entry. -/
structure Image where
  base : Option Int := none
  size : Option Int := none
  name : String := ""
  arch : Option String := none
  uuid : Option String := none
  path : Option String := none
deriving Repr, DecidableEq

/-- A `threads` entry. -/
structure Thread where
  id : Int := 0
  name : Option String := none
  queue : Option String := none
  triggered : Bool := false
  frames : Option (List Frame) := none
  threadState : Option ThreadState := none
deriving Repr, DecidableEq

/-- A value of the `asi` map: a scalar (already in its JS string form)
or an array of element strings. -/
inductive AsiValue where
  | scalar (s : String)
  | array (xs : List String)
deriving Repr, DecidableEq

structure BundleInfo where
  CFBundleIdentifier : Option String := none
  CFBundleShortVersionString : Option String := none
  CFBundleVersion : Option String := none
  DTAppStoreToolsBuild : Option String := none
deriving Repr, DecidableEq

structure BuildInfo where
  ProjectName : Option String := none
  SourceVersion : Option String := none
  BuildVersion : Option String := none
deriving Repr, DecidableEq

structure StoreInfo where
  applicationVariant : Option String := none
  deviceIdentifierForVendor : Option String := none
deriving Repr, DecidableEq

structure OsVersion where
  train : Option String := none
  build : Option String := none
  releaseType : Option String := none
deriving Repr, DecidableEq

structure ExceptionInfo where
  type : Option String := none
  signal : Option String := none
  subtype : Option String := none
  codes : Option String := none
  message : Option String := none
deriving Repr, DecidableEq

/-- The `termination` record; `nspace` embeds the JS field `namespace`
(a reserved word in Lean). -/
structure Termination where
  nspace : Option String := none
  code : Option Int := none
  indicator : Option String := none
  byProc : Option String := none
  byPid : Option Int := none
deriving Repr, DecidableEq

structure ExtModGroup where
  task_for_pid : Option Int := none
  thread_create : Option Int := none
  thread_set_state : Option Int := none
deriving Repr, DecidableEq

structure ExtMods where
  targeted : Option ExtModGroup := none
  caller : Option ExtModGroup := none
  system : Option ExtModGroup := none
deriving Repr, DecidableEq

structure AIStatus where
  state : Option String := none
  reasons : Option (List String) := none
deriving Repr, DecidableEq

structure InstructionByteStream where
  beforePC : Option String := none
  atPC : Option String := none
deriving Repr, DecidableEq

/-- The crash report payload: a sparse record of optional fields. -/
structure Report where
  procName : Option String := none
  pid : Option Int := none
  procPath : Option String := none
  bundleInfo : Option BundleInfo := none
  buildInfo : Option BuildInfo := none
  storeInfo : Option StoreInfo := none
  osVersion : Option OsVersion := none
  isBeta : Option Bool := none
  translated : Option Bool := none
  cpuType : Option String := none
  procRole : Option String := none
  parentProc : Option String := none
  parentPid : Option Int := none
  coalitionName : Option String := none
  coalitionID : Option Int := none
  responsibleProc : Option String := none
  responsiblePid : Option Int := none
  userID : Option Int := none
  captureTime : Option String := none
  procLaunch : Option String := none
  procStartAbsTime : Option Int := none
  procExitAbsTime : Option Int := none
  modelCode : Option String := none
  codeName : Option String := none
  basebandVersion : Option String := none
  systemID : Option String := none
  crashReporterKey : Option String := none
  bootSessionUUID : Option String := none
  incident : Option String := none
  sleepWakeUUID : Option String := none
  uptime : Option Int := none
  wakeTime : Option Int := none
  sip : Option String := none
  developerMode : Option Bool := none
  appleIntelligenceStatus : Option AIStatus := none
  deployVersion : Option Int := none
  throttleTimeout : Option Int := none
  codeSigningMonitor : Option Int := none
  codeSigningID : Option String := none
  codeSigningTeamID : Option String := none
  codeSigningFlags : Option Int := none
  codeSigningValidationCategory : Option Int := none
  codeSigningTrustLevel : Option Int := none
  codeSigningAuxiliaryInfo : Option Int := none
  bootProgressRegister : Option String := none
  wasUnlockedSinceBoot : Option Bool := none
  isLocked : Option Bool := none
  faultingThread : Option Int := none
  exception : Option ExceptionInfo := none
  termination : Option Termination := none
  vmRegionInfo : Option String := none
  instructionByteStream : Option InstructionByteStream := none
  asi : Option (List (String × AsiValue)) := none
  lastExceptionBacktrace : Option (List Frame) := none
  threads : Option (List Thread) := none
  usedImages : Option (List Image) := none
  extMods : Option ExtMods := none
  vmSummary : Option String := none
  filteredLog : Option (List String) := none
deriving Repr

/-- The metadata line, as the formatters read it
(only `incident_id` is ever accessed after validation). -/
structure Metadata where
  incident_id : Option String := none
deriving Repr, DecidableEq

/-- JS `usedImages[i]` for an integer index: `undefined` when the
index is negative or at least the array length. -/
def imageLookup (images : List Image) (i : Int) : Option Image :=
  if i < 0 then none else images.get? i.toNat

/-- JS `s || d` for a required string field: `""` is falsy. -/
def jsOrStrV (s d : String) : String :=
  if s = "" then d else s

/-- JS `this.report.usedImages[frame.imageIndex]`: throws a `TypeError`
when `usedImages` is absent (`undefined[...]`), otherwise indexes. -/
def jsIndexImages (usedImages : Option (List Image)) (i : Int) :
    Except String (Option Image) :=
  match usedImages with
  | none => .error "Cannot read properties of undefined"
  | some imgs => .ok (imageLookup imgs i)

/-- A `\x7b name, object \x7d` entry of the `registers` array built by
`formatThreadState`. -/
structure Register where
  name : String
  object : RegObject
deriving Repr, DecidableEq

/-- The fixed named-register layout of the `ARM_THREAD_STATE64` branch
(`namedRegs`, core lines 388-391), paired with its field accessors. -/
def armNamedRegs : List (String × (ThreadState → Option RegObject)) :=
  [("fp", ThreadState.fp), ("lr", ThreadState.lr), ("sp", ThreadState.sp),
   ("pc", ThreadState.pc), ("cpsr", ThreadState.cpsr),
   ("far", ThreadState.far), ("esr", ThreadState.esr)]

/-- The fixed register layout of the `x86_THREAD_STATE` branch
(`x86Regs`, core lines 403-407). -/
def x86RegsLayout : List (String × (ThreadState → Option RegObject)) :=
  [("rax", ThreadState.rax), ("rbx", ThreadState.rbx), ("rcx", ThreadState.rcx),
   ("rdx", ThreadState.rdx), ("rdi", ThreadState.rdi), ("rsi", ThreadState.rsi),
   ("rbp", ThreadState.rbp), ("rsp", ThreadState.rsp),
   ("r8", ThreadState.r8), ("r9", ThreadState.r9), ("r10", ThreadState.r10),
   ("r11", ThreadState.r11), ("r12", ThreadState.r12), ("r13", ThreadState.r13),
   ("r14", ThreadState.r14), ("r15", ThreadState.r15),
   ("rip", ThreadState.rip), ("rflags", ThreadState.rflags), ("cr2", ThreadState.cr2)]

namespace IPSParser

/-- `formatHeader` (core lines 95-227). -/
def formatHeader (r : Report) (m : Metadata) : String :=
  let bundleInfo := r.bundleInfo.getD {}
  let buildInfo := r.buildInfo.getD {}
  let storeInfo := r.storeInfo.getD {}
  let osVersion := r.osVersion.getD {}
  "Process:             " ++ jsOrStr r.procName "Unknown" ++ " [" ++ toString (jsOrInt r.pid 0) ++ "]\n"
  ++ "Path:                " ++ jsOrStr r.procPath "Unknown" ++ "\n"
  ++ "Identifier:          " ++ jsOrStr bundleInfo.CFBundleIdentifier "Unknown" ++ "\n"
  ++ "Version:             " ++ jsOrStr bundleInfo.CFBundleShortVersionString "?"
    ++ " (" ++ jsOrStr bundleInfo.CFBundleVersion "?" ++ ")\n"
  ++ ifStr bundleInfo.DTAppStoreToolsBuild (fun s => "AppStoreTools:       " ++ s ++ "\n")
  ++ ifStr storeInfo.applicationVariant (fun s => "AppVariant:          " ++ s ++ "\n")
  ++ ifSome r.isBeta (fun b => "Beta:                " ++ (if b then "YES" else "NO") ++ "\n")
  ++ (if strTruthy buildInfo.ProjectName && strTruthy buildInfo.SourceVersion
        && strTruthy buildInfo.BuildVersion then
      "Build Info:          " ++ buildInfo.ProjectName.getD "" ++ "-"
        ++ buildInfo.SourceVersion.getD "" ++ "~" ++ buildInfo.BuildVersion.getD "" ++ "\n"
    else "")
  ++ "Code Type:           " ++ jsOrStr r.cpuType "???"
    ++ " (" ++ (if r.translated.getD false then "Translated" else "Native") ++ ")\n"
  ++ ifStr r.procRole (fun s => "Role:                " ++ s ++ "\n")
  ++ "Parent Process:      " ++ jsOrStr r.parentProc "Unknown"
  ++ ifSome r.parentPid (fun p => " [" ++ toString p ++ "]")
  ++ "\n"
  ++ ifStr r.coalitionName (fun n => "Coalition:           " ++ n
      ++ ifSome r.coalitionID (fun i => " [" ++ toString i ++ "]") ++ "\n")
  ++ ifStr r.responsibleProc (fun n => "Responsible Process: " ++ n
      ++ ifSome r.responsiblePid (fun i => " [" ++ toString i ++ "]") ++ "\n")
  ++ ifSome r.userID (fun u => "User ID:             " ++ toString u ++ "\n")
  ++ "\n"
  ++ "Date/Time:           " ++ jsOrStr r.captureTime "Unknown" ++ "\n"
  ++ ifStr r.procLaunch (fun s => "Launch Time:         " ++ s ++ "\n")
  ++ ifStr r.modelCode (fun s => "Hardware Model:      " ++ s ++ "\n")
  ++ ifStr r.codeName (fun s => "Device Model:        " ++ s ++ "\n")
  ++ "OS Version:          " ++ jsOrStr osVersion.train "Unknown"
    ++ " (" ++ jsOrStr osVersion.build "Unknown" ++ ")\n"
  ++ ifStr osVersion.releaseType (fun s => "Release Type:        " ++ s ++ "\n")
  ++ ifStr r.basebandVersion (fun s => "Baseband Version:    " ++ s ++ "\n")
  ++ "\n"
  ++ ifStr storeInfo.deviceIdentifierForVendor (fun s => "Beta Identifier:     " ++ s ++ "\n")
  ++ ifStr r.systemID (fun s => "UDID:                " ++ s ++ "\n")
  ++ ifStr r.crashReporterKey (fun s => "Crash Reporter Key:  " ++ s ++ "\n")
  ++ "Incident Identifier: " ++ jsOrStr r.incident (jsOrStr m.incident_id "Unknown") ++ "\n"
  ++ "\n"
  ++ ifStr r.sleepWakeUUID (fun s => "Sleep/Wake UUID:       " ++ s ++ "\n" ++ "\n")
  ++ ifSome r.uptime (fun u => "Time Awake Since Boot: " ++ toString u ++ " seconds\n")
  ++ ifSome r.wakeTime (fun w => "Time Since Wake:       " ++ toString w ++ " seconds\n")
  ++ (if r.uptime.isSome || r.wakeTime.isSome then "\n" else "")
  ++ ifSome r.sip (fun s => "System Integrity Protection: " ++ s ++ "\n" ++ "\n")
  ++ ifSome r.faultingThread (fun t => "Triggered by Thread: " ++ toString t ++ "\n")

/-- `formatException` (core lines 229-268). -/
def formatException (r : Report) : String :=
  let ex := r.exception.getD {}
  "\n"
  ++ "Exception Type:    " ++ jsOrStr ex.type "Unknown"
  ++ ifStr ex.signal (fun s => " (" ++ s ++ ")")
  ++ "\n"
  ++ ifSome ex.subtype (fun s => "Exception Subtype: " ++ s ++ "\n")
  ++ ifSome ex.codes (fun s => "Exception Codes:   " ++ s ++ "\n")
  ++ (match r.termination with
    | some term =>
      "\n"
      ++ "Termination Reason:  Namespace " ++ jsOrStr term.nspace "Unknown"
      ++ ", Code " ++ toString (jsOrInt term.code 0)
      ++ ifStr term.indicator (fun s => ", " ++ s)
      ++ "\n"
      ++ ifStr term.byProc (fun p => "Terminating Process: " ++ p
          ++ " [" ++ toString (jsOrInt term.byPid 0) ++ "]\n")
    | none => "")
  ++ ifStr r.vmRegionInfo (fun s => "\n\n" ++ "VM Region Info: " ++ s)

/-- `formatASI` (core lines 270-285): array values emit one bare line
per element, scalar values emit `key: value`. -/
def formatASI (asi : List (String × AsiValue)) : String :=
  "\n" ++ "Application Specific Information:\n"
  ++ sjoin (asi.map (fun kv =>
    match kv.2 with
    | .array xs => sjoin (xs.map (fun v => v ++ "\n"))
    | .scalar v => kv.1 ++ ": " ++ v ++ "\n"))

/-- Backtrace frame image name, core line 296:
`imageInfo ? imageInfo.name : 'Unknown'`. -/
def backtraceFrameImageName (imageInfo : Option Image) : String :=
  match imageInfo with
  | some img => img.name
  | none => "Unknown"

/-- Backtrace frame address, core line 300:
`(imageInfo?.base || 0) + frame.imageOffset`. -/
def backtraceFrameAddress (imageInfo : Option Image) (frame : Frame) : Int :=
  jsOrInt (imageInfo.bind Image.base) 0 + frame.imageOffset

/-- Backtrace frame symbol, core line 297:
`frame.symbol || `0x$\x7bbase hex\x7d + $\x7bimageOffset\x7d``. -/
def backtraceFrameSymbol (imageInfo : Option Image) (frame : Frame) : String :=
  jsOrStr frame.symbol ("0x" ++ intToHex (jsOrInt (imageInfo.bind Image.base) 0)
    ++ " + " ++ toString frame.imageOffset)

/-- One backtrace output line (core lines 299-307). -/
def backtraceFrameLine (imageInfo : Option Image) (index : Nat) (frame : Frame) : String :=
  jsPadStart (toString index) 2 ' ' ++ "  "
  ++ jsPadEnd (backtraceFrameImageName imageInfo) 30 ' ' ++ "\t"
  ++ "0x" ++ jsPadStart (intToHex (backtraceFrameAddress imageInfo frame)) 16 '0' ++ " "
  ++ backtraceFrameSymbol imageInfo frame
  ++ ifSome frame.symbolLocation (fun l => " + " ++ toString l)
  ++ "\n"

/-- The `backtrace.forEach` loop of `formatLastExceptionBacktrace`. -/
def renderBacktraceFrames (usedImages : Option (List Image)) (index : Nat) :
    List Frame → Except String String
  | [] => .ok ""
  | frame :: rest =>
    match jsIndexImages usedImages frame.imageIndex with
    | .error e => .error e
    | .ok imageInfo =>
      match renderBacktraceFrames usedImages (index + 1) rest with
      | .error e => .error e
      | .ok tail => .ok (backtraceFrameLine imageInfo index frame ++ tail)

/-- `formatLastExceptionBacktrace` (core lines 287-311). -/
def formatLastExceptionBacktrace (r : Report) : Except String String :=
  match r.lastExceptionBacktrace with
  | none => .ok ""
  | some backtrace =>
    if backtrace.length = 0 then .ok ""
    else
      match renderBacktraceFrames r.usedImages 0 backtrace with
      | .error e => .error e
      | .ok body => .ok ("\n" ++ "Last Exception Backtrace:\n" ++ body)

/-- Thread frame image name, core line 341: `imageInfo?.name || '???'`. -/
def threadFrameImageName (imageInfo : Option Image) : String :=
  jsOrStr (imageInfo.map Image.name) "???"

/-- Thread frame address, core line 342:
`(imageInfo?.base || 0) + frame.imageOffset`. -/
def threadFrameAddress (imageInfo : Option Image) (frame : Frame) : Int :=
  jsOrInt (imageInfo.bind Image.base) 0 + frame.imageOffset

/-- Thread frame symbol, core line 343 (same fallback as the backtrace). -/
def threadFrameSymbol (imageInfo : Option Image) (frame : Frame) : String :=
  jsOrStr frame.symbol ("0x" ++ intToHex (jsOrInt (imageInfo.bind Image.base) 0)
    ++ " + " ++ toString frame.imageOffset)

/-- One thread-listing frame line (core lines 345-353). -/
def threadFrameLine (imageInfo : Option Image) (index : Nat) (frame : Frame) : String :=
  jsPadStart (toString index) 2 ' ' ++ "  "
  ++ jsPadEnd (threadFrameImageName imageInfo) 30 ' ' ++ "\t"
  ++ "0x" ++ jsPadStart (intToHex (threadFrameAddress imageInfo frame)) 16 '0' ++ " "
  ++ threadFrameSymbol imageInfo frame
  ++ ifSome frame.symbolLocation (fun l => " + " ++ toString l)
  ++ "\n"

/-- The `thread.frames.forEach` loop of `formatThreads`. -/
def renderThreadFrames (usedImages : Option (List Image)) (index : Nat) :
    List Frame → Except String String
  | [] => .ok ""
  | frame :: rest =>
    match jsIndexImages usedImages frame.imageIndex with
    | .error e => .error e
    | .ok imageInfo =>
      match renderThreadFrames usedImages (index + 1) rest with
      | .error e => .error e
      | .ok tail => .ok (threadFrameLine imageInfo index frame ++ tail)

/-- The thread header line (core lines 321-335). -/
def threadHeader (thread : Thread) : String :=
  "Thread " ++ toString thread.id
  ++ ifStr thread.name (fun n => " name:  " ++ n)
  ++ (if thread.triggered then " Crashed" else "")
  ++ ":"
  ++ ifStr thread.queue (fun q => ":  Dispatch queue: " ++ q)
  ++ "\n"

/-- The `threads.forEach` loop of `formatThreads`. -/
def renderThreads (usedImages : Option (List Image)) :
    List Thread → Except String String
  | [] => .ok ""
  | thread :: rest =>
    match (match thread.frames with
      | some frames =>
        if frames.length > 0 then renderThreadFrames usedImages 0 frames
        else Except.ok ""
      | none => Except.ok "") with
    | .error e => .error e
    | .ok framesPart =>
      match renderThreads usedImages rest with
      | .error e => .error e
      | .ok tail => .ok (threadHeader thread ++ framesPart ++ "\n" ++ tail)

/-- The `registers` array built by the `ARM_THREAD_STATE64` branch of
`formatThreadState` (core lines 383-396): `x0..xN` in index order, then
each named register that is present, in the fixed layout order. -/
def armRegisters (state : ThreadState) : List Register :=
  let registers : List Register := []
  let registers := match state.x with
    | some xs => registers ++ xs.enum.map (fun p => { name := "x" ++ toString p.1, object := p.2 })
    | none => registers
  armNamedRegs.foldl (fun regs p =>
    match p.2 state with
    | some o => regs ++ [{ name := p.1, object := o }]
    | none => regs) registers

/-- The `registers` array built by the `x86_THREAD_STATE` branch
(core lines 409-415); `rflags` displays as `rfl`. -/
def x86Registers (state : ThreadState) : List Register :=
  x86RegsLayout.foldl (fun regs p =>
    match p.2 state with
    | some o => regs ++ [{ name := if p.1 = "rflags" then "rfl" else p.1, object := o }]
    | none => regs) []

/-- The `additionalInfo` string of the x86 branch (core lines 417-434). -/
def x86AdditionalInfo (state : ThreadState) : String :=
  ifSome state.cpu (fun c => "\nLogical CPU:     " ++ toString c.value ++ "\n")
  ++ ifSome state.err (fun e => "Error Code:      0x" ++ jsPadStart (intToHex e.value) 8 '0'
      ++ ifStr e.description (fun d => " " ++ d) ++ "\n")
  ++ ifSome state.trap (fun t => "Trap Number:     " ++ toString t.value
      ++ ifStr t.description (fun d => " " ++ d) ++ "\n")

/-- One register cell (core lines 445-451). In a well-typed state every
register carries a `value`, so the source's `reg.object.value || 0`
is the value itself. -/
def renderRegister (reg : Register) : String :=
  "  " ++ jsPadStart reg.name 4 ' ' ++ ": 0x"
  ++ jsPadStart (intToHex reg.object.value) 16 '0'
  ++ ifStr reg.object.description (fun d => " " ++ d)

/-- `registers.slice(i, i + 4)` grouping of the register-line loop. -/
def groupsOf4 {α : Type} : List α → List (List α)
  | [] => []
  | [a] => [[a]]
  | [a, b] => [[a, b]]
  | [a, b, c] => [[a, b, c]]
  | a :: b :: c :: d :: rest => [a, b, c, d] :: groupsOf4 rest

/-- The register-line loop (core lines 444-454). -/
def renderRegisterLines (registers : List Register) : String :=
  sjoin ((groupsOf4 registers).map (fun group =>
    sjoin (group.map renderRegister) ++ "\n"))

/-- `formatThreadState` (core lines 371-460). -/
def formatThreadState (thread : Thread) (threadNum : Int) : String :=
  match thread.threadState with
  | none => ""
  | some state =>
    match state.flavor with
    | some "ARM_THREAD_STATE64" =>
      "\nThread " ++ toString threadNum ++ " crashed with ARM Thread State (64-bit):\n"
      ++ renderRegisterLines (armRegisters state)
      ++ "\n"
    | some "x86_THREAD_STATE" =>
      "\nThread " ++ toString threadNum ++ " crashed with X86 Thread State (64-bit):\n"
      ++ renderRegisterLines (x86Registers state)
      ++ x86AdditionalInfo state
      ++ "\n"
    | _ => ""

/-- `formatThreads` (core lines 313-369). -/
def formatThreads (r : Report) : Except String String :=
  let threads := r.threads.getD []
  match renderThreads r.usedImages threads with
  | .error e => .error e
  | .ok body =>
    let stateBlock :=
      match r.faultingThread with
      | some ft =>
        match threads.find? (fun t => t.triggered) with
        | some crashedThread =>
          match crashedThread.threadState with
          | some _ => formatThreadState crashedThread ft
          | none => ""
        | none => ""
      | none => ""
    .ok ("\n" ++ body ++ stateBlock)

/-- One Binary Images row (core lines 472-480). -/
def binaryImageRow (image : Image) : String :=
  let base := jsOrInt image.base 0
  let endAddr := base + jsOrInt image.size 0 - 1
  "       0x" ++ intToHex base ++ " - "
  ++ "       0x" ++ intToHex endAddr
  ++ " " ++ jsPadEnd (jsOrStrV image.name "???") 30 ' '
  ++ " " ++ jsOrStr image.arch "unknown-arch" ++ " "
  ++ " <" ++ (jsOrStr image.uuid "").replace "-" "" ++ ">"
  ++ " " ++ jsOrStr image.path "???" ++ "\n"

/-- `formatBinaryImages` (core lines 462-484): entries with
`size === 0` are skipped. -/
def formatBinaryImages (r : Report) : String :=
  let images := r.usedImages.getD []
  "\nBinary Images:\n"
  ++ sjoin (images.map (fun image =>
    if image.size = some 0 then "" else binaryImageRow image))

/-- The per-group counter lines of `formatExtMods`. -/
def extModGroupLines (g : ExtModGroup) : String :=
  ifSome g.task_for_pid (fun v => "    task_for_pid: " ++ toString v ++ "\n")
  ++ ifSome g.thread_create (fun v => "    thread_create: " ++ toString v ++ "\n")
  ++ ifSome g.thread_set_state (fun v => "    thread_set_state: " ++ toString v ++ "\n")

/-- `formatExtMods` (core lines 486-535). -/
def formatExtMods (r : Report) : String :=
  match r.extMods with
  | none => ""
  | some extMods =>
    "\nExternal Modification Summary:\n"
    ++ (match extMods.targeted with
      | some g => "  Calls made by other processes targeting this process:\n" ++ extModGroupLines g
      | none => "")
    ++ (match extMods.caller with
      | some g => "  Calls made by this process:\n" ++ extModGroupLines g
      | none => "")
    ++ (match extMods.system with
      | some g => "  Calls made by all processes on this machine:\n" ++ extModGroupLines g
      | none => "")

/-- `formatReport` (core lines 37-93), minus the not-parsed guard,
which lives on the stateful wrapper `formatReportS` below. -/
def formatReport (r : Report) (m : Metadata) : Except String String :=
  let output := ""
  let output := output ++ formatHeader r m ++ "\n"
  let output := output ++ formatException r ++ "\n"
  let output := output ++ (match r.asi with
    | some asi => formatASI asi ++ "\n"
    | none => "")
  match (match r.lastExceptionBacktrace with
    | some _ =>
      (match formatLastExceptionBacktrace r with
       | .error e => Except.error e
       | .ok s => Except.ok (s ++ "\n"))
    | none => Except.ok "") with
  | .error e => .error e
  | .ok backtracePart =>
    match formatThreads r with
    | .error e => .error e
    | .ok threadsPart =>
      let output := output ++ backtracePart
      let output := output ++ threadsPart ++ "\n"
      let output := output ++ formatBinaryImages r ++ "\n"
      let output := output ++ (match r.extMods with
        | some _ => formatExtMods r ++ "\n"
        | none => "")
      let output := output ++ ifStr r.vmSummary (fun s => "VM Region Summary:\n" ++ s ++ "\n")
      let output := output ++ (match r.filteredLog with
        | some log => if log.length > 0 then "Filtered log messages:\n" ++ jsJoinNewline log ++ "\n\n" else ""
        | none => "")
      .ok output

end IPSParser

/-! ## Typed view of the stored JSON report

After `parse` succeeds the instance fields hold raw JSON; the
formatters read their fields dynamically. The typed view extracts each
field the formatters use, treating a missing or differently-typed field
as absent (the well-typedness assumption of the section builder). -/

/-- JS property read on a parsed JSON object; `undefined` elsewhere. -/
def Json.field? (j : Json) (k : String) : Option Json :=
  match j with
  | .obj fs => lookupLast fs k
  | _ => none

/-- Integer value of an integral JSON number lexeme. -/
def lexToInt? (s : String) : Option Int :=
  let cs := s.toList
  let (neg, ds) := match cs with
    | '-' :: t => (true, t)
    | _ => (false, cs)
  if ds ≠ [] ∧ ds.all Char.isDigit then
    let n : Nat := ds.foldl (fun acc c => acc * 10 + (c.toNat - '0'.toNat)) 0
    some (if neg then -(n : Int) else (n : Int))
  else none

def Json.asStr : Json → Option String
  | .str s => some s
  | _ => none

def Json.asInt : Json → Option Int
  | .num lex => lexToInt? lex
  | _ => none

def Json.asBool : Json → Option Bool
  | .bool b => some b
  | _ => none

def Json.getStr (j : Json) (k : String) : Option String :=
  (j.field? k).bind Json.asStr

def Json.getInt (j : Json) (k : String) : Option Int :=
  (j.field? k).bind Json.asInt

def Json.getBool (j : Json) (k : String) : Option Bool :=
  (j.field? k).bind Json.asBool

def Json.getArr (j : Json) (k : String) : Option (List Json) :=
  (j.field? k).bind fun v =>
    match v with
    | .arr xs => some xs
    | _ => none

def Json.getObj (j : Json) (k : String) : Option Json :=
  (j.field? k).bind fun v =>
    match v with
    | .obj _ => some v
    | _ => none

def regObjectOfJson (j : Json) : RegObject :=
  { value := (j.getInt "value").getD 0
    description := j.getStr "description" }

/-- Read an optional register object field of a `threadState`. -/
def jsonReg (j : Json) (k : String) : Option RegObject :=
  (j.getObj k).map regObjectOfJson

def regListOfJson (xs : List Json) : List RegObject :=
  xs.map regObjectOfJson

def threadStateOfJson (j : Json) : ThreadState :=
  ThreadState.mk (j.getStr "flavor")
    ((j.getArr "x").map regListOfJson)
    (jsonReg j "fp") (jsonReg j "lr") (jsonReg j "sp") (jsonReg j "pc")
    (jsonReg j "cpsr") (jsonReg j "far") (jsonReg j "esr")
    (jsonReg j "rax") (jsonReg j "rbx") (jsonReg j "rcx") (jsonReg j "rdx")
    (jsonReg j "rdi") (jsonReg j "rsi") (jsonReg j "rbp") (jsonReg j "rsp")
    (jsonReg j "r8") (jsonReg j "r9") (jsonReg j "r10") (jsonReg j "r11")
    (jsonReg j "r12") (jsonReg j "r13") (jsonReg j "r14") (jsonReg j "r15")
    (jsonReg j "rip") (jsonReg j "rflags") (jsonReg j "cr2")
    (jsonReg j "cpu") (jsonReg j "err") (jsonReg j "trap")

def frameOfJson (j : Json) : Frame :=
  { imageIndex := (j.getInt "imageIndex").getD 0
    imageOffset := (j.getInt "imageOffset").getD 0
    symbol := j.getStr "symbol"
    symbolLocation := j.getInt "symbolLocation" }

def imageOfJson (j : Json) : Image :=
  { base := j.getInt "base"
    size := j.getInt "size"
    name := (j.getStr "name").getD ""
    arch := j.getStr "arch"
    uuid := j.getStr "uuid"
    path := j.getStr "path" }

def frameListOfJson (xs : List Json) : List Frame :=
  xs.map frameOfJson

def threadOfJson (j : Json) : Thread :=
  { id := (j.getInt "id").getD 0
    name := j.getStr "name"
    queue := j.getStr "queue"
    triggered := (j.getBool "triggered").getD false
    frames := (j.getArr "frames").map frameListOfJson
    threadState := (j.getObj "threadState").map threadStateOfJson }

def bundleInfoOfJson (j : Json) : BundleInfo :=
  { CFBundleIdentifier := j.getStr "CFBundleIdentifier"
    CFBundleShortVersionString := j.getStr "CFBundleShortVersionString"
    CFBundleVersion := j.getStr "CFBundleVersion"
    DTAppStoreToolsBuild := j.getStr "DTAppStoreToolsBuild" }

def buildInfoOfJson (j : Json) : BuildInfo :=
  { ProjectName := j.getStr "ProjectName"
    SourceVersion := j.getStr "SourceVersion"
    BuildVersion := j.getStr "BuildVersion" }

def storeInfoOfJson (j : Json) : StoreInfo :=
  { applicationVariant := j.getStr "applicationVariant"
    deviceIdentifierForVendor := j.getStr "deviceIdentifierForVendor" }

def osVersionOfJson (j : Json) : OsVersion :=
  { train := j.getStr "train"
    build := j.getStr "build"
    releaseType := j.getStr "releaseType" }

def exceptionOfJson (j : Json) : ExceptionInfo :=
  { type := j.getStr "type"
    signal := j.getStr "signal"
    subtype := j.getStr "subtype"
    codes := j.getStr "codes"
    message := j.getStr "message" }

def terminationOfJson (j : Json) : Termination :=
  { nspace := j.getStr "namespace"
    code := j.getInt "code"
    indicator := j.getStr "indicator"
    byProc := j.getStr "byProc"
    byPid := j.getInt "byPid" }

def extModGroupOfJson (j : Json) : ExtModGroup :=
  { task_for_pid := j.getInt "task_for_pid"
    thread_create := j.getInt "thread_create"
    thread_set_state := j.getInt "thread_set_state" }

def extModsOfJson (j : Json) : ExtMods :=
  { targeted := (j.getObj "targeted").map extModGroupOfJson
    caller := (j.getObj "caller").map extModGroupOfJson
    system := (j.getObj "system").map extModGroupOfJson }

def asiOfJson (j : Json) : Option (List (String × AsiValue)) :=
  match j.field? "asi" with
  | some (.obj fs) => some (fs.map (fun kv =>
    (kv.1, match kv.2 with
      | .arr xs => AsiValue.array (xs.map Json.interp)
      | v => AsiValue.scalar v.interp)))
  | _ => none

def strListOfJson (xs : List Json) : List String :=
  xs.map Json.interp

def threadListOfJson (xs : List Json) : List Thread :=
  xs.map threadOfJson

def imageListOfJson (xs : List Json) : List Image :=
  xs.map imageOfJson

def aiStatusOfJson (a : Json) : AIStatus :=
  { state := a.getStr "state"
    reasons := (a.getArr "reasons").map strListOfJson }

def instructionByteStreamOfJson (i : Json) : InstructionByteStream :=
  { beforePC := i.getStr "beforePC", atPC := i.getStr "atPC" }

def reportOfJson (j : Json) : Report :=
  { procName := j.getStr "procName"
    pid := j.getInt "pid"
    procPath := j.getStr "procPath"
    bundleInfo := (j.getObj "bundleInfo").map bundleInfoOfJson
    buildInfo := (j.getObj "buildInfo").map buildInfoOfJson
    storeInfo := (j.getObj "storeInfo").map storeInfoOfJson
    osVersion := (j.getObj "osVersion").map osVersionOfJson
    isBeta := j.getBool "isBeta"
    translated := j.getBool "translated"
    cpuType := j.getStr "cpuType"
    procRole := j.getStr "procRole"
    parentProc := j.getStr "parentProc"
    parentPid := j.getInt "parentPid"
    coalitionName := j.getStr "coalitionName"
    coalitionID := j.getInt "coalitionID"
    responsibleProc := j.getStr "responsibleProc"
    responsiblePid := j.getInt "responsiblePid"
    userID := j.getInt "userID"
    captureTime := j.getStr "captureTime"
    procLaunch := j.getStr "procLaunch"
    procStartAbsTime := j.getInt "procStartAbsTime"
    procExitAbsTime := j.getInt "procExitAbsTime"
    modelCode := j.getStr "modelCode"
    codeName := j.getStr "codeName"
    basebandVersion := j.getStr "basebandVersion"
    systemID := j.getStr "systemID"
    crashReporterKey := j.getStr "crashReporterKey"
    bootSessionUUID := j.getStr "bootSessionUUID"
    incident := j.getStr "incident"
    sleepWakeUUID := j.getStr "sleepWakeUUID"
    uptime := j.getInt "uptime"
    wakeTime := j.getInt "wakeTime"
    sip := j.getStr "sip"
    developerMode := j.getBool "developerMode"
    appleIntelligenceStatus := (j.getObj "appleIntelligenceStatus").map aiStatusOfJson
    deployVersion := j.getInt "deployVersion"
    throttleTimeout := j.getInt "throttleTimeout"
    codeSigningMonitor := j.getInt "codeSigningMonitor"
    codeSigningID := j.getStr "codeSigningID"
    codeSigningTeamID := j.getStr "codeSigningTeamID"
    codeSigningFlags := j.getInt "codeSigningFlags"
    codeSigningValidationCategory := j.getInt "codeSigningValidationCategory"
    codeSigningTrustLevel := j.getInt "codeSigningTrustLevel"
    codeSigningAuxiliaryInfo := j.getInt "codeSigningAuxiliaryInfo"
    bootProgressRegister := j.getStr "bootProgressRegister"
    wasUnlockedSinceBoot := j.getBool "wasUnlockedSinceBoot"
    isLocked := j.getBool "isLocked"
    faultingThread := j.getInt "faultingThread"
    exception := (j.getObj "exception").map exceptionOfJson
    termination := (j.getObj "termination").map terminationOfJson
    vmRegionInfo := j.getStr "vmRegionInfo"
    instructionByteStream := (j.getObj "instructionByteStream").map instructionByteStreamOfJson
    asi := asiOfJson j
    lastExceptionBacktrace := (j.getArr "lastExceptionBacktrace").map frameListOfJson
    threads := (j.getArr "threads").map threadListOfJson
    usedImages := (j.getArr "usedImages").map imageListOfJson
    extMods := (j.getObj "extMods").map extModsOfJson
    vmSummary := j.getStr "vmSummary"
    filteredLog := (j.getArr "filteredLog").map strListOfJson }

def metaOfJson (j : Json) : Metadata :=
  { incident_id := j.getStr "incident_id" }

/-- `IPSParser.formatReport`, instance-level: the not-parsed guard of
core lines 38-40 (`if (!this.metadata || !this.report) throw`),
then the section builder on the stored report. -/
def IPSParser.formatReportS (st : IPSParserState) : Except String String :=
  match st.metadata, st.report with
  | some m, some r =>
    if m.truthy && r.truthy then IPSParser.formatReport (reportOfJson r) (metaOfJson m)
    else .error "Report not parsed. Call parse() first."
  | _, _ => .error "Report not parsed. Call parse() first."

/-! ## DOM model and the `StructuredIPSParser` renderer

The DOM is modelled as a tree of elements (tag, class, children) and
text nodes. Presentational node state (`details.open`, inline styles)
is outside the model. A `DocumentFragment` is an element with the
reserved tag `#document-fragment`; `appendChild` splices its children,
as the DOM does. -/

inductive DomNode where
  | el (tag : String) (className : Option String) (children : List DomNode)
  | txt (s : String)
deriving Repr

def fragmentTag : String := "#document-fragment"

def DomNode.isFragment : DomNode → Bool
  | .el t _ _ => t = fragmentTag
  | .txt _ => false

def DomNode.childList : DomNode → List DomNode
  | .el _ _ kids => kids
  | .txt _ => []

/-- What `appendChild` adds to the parent's child list: a fragment is
spliced, any other node is appended as itself. -/
def DomNode.spliceList (child : DomNode) : List DomNode :=
  if child.isFragment then child.childList else [child]

/-- `parent.appendChild(child)`; fragments are spliced. -/
def appendChild (parent child : DomNode) : DomNode :=
  match parent with
  | .el t c kids => .el t c (kids ++ child.spliceList)
  | .txt s => .txt s

/-- `parent.append(...)` with string arguments becoming text nodes. -/
def appendNodes (parent : DomNode) (items : List DomNode) : DomNode :=
  items.foldl appendChild parent

/-- `element.textContent`, fuel-indexed so that it reduces
definitionally; the fuel bounds the node count, far above any node this
program builds. -/
def DomNode.textContentAux : Nat → DomNode → String
  | _, .txt s => s
  | 0, .el _ _ _ => ""
  | _ + 1, .el _ _ [] => ""
  | fuel + 1, .el t c (k :: ks) =>
    DomNode.textContentAux fuel k ++ DomNode.textContentAux fuel (.el t c ks)

/-- `element.textContent`: the concatenation of all descendant text. -/
def DomNode.textContent (n : DomNode) : String :=
  DomNode.textContentAux 1000 n

namespace StructuredIPSParser

/-- `createElement` helper (structured lines 38-43). -/
def createElement (tag : String) (className : Option String)
    (textContent : Option String) : DomNode :=
  .el tag className (match textContent with
    | some t => [.txt t]
    | none => [])

def createSpan (className : Option String) (textContent : Option String) : DomNode :=
  createElement "span" className textContent

def createDiv (className : Option String) (textContent : Option String) : DomNode :=
  createElement "div" className textContent

/-- `createAddress` (structured lines 53-55). -/
def createAddress (addr : Int) : DomNode :=
  createSpan (some "addr") (some ("0x" ++ jsPadStart (intToHex addr) 16 '0'))

/-- `createNumber` (structured lines 57-59). -/
def createNumber (num : Int) : DomNode :=
  createSpan (some "number") (some (toString num))

/-- `createSymbol` (structured lines 61-63). -/
def createSymbol (sym : String) : DomNode :=
  createSpan (some "symbol") (some sym)

def createFragment : DomNode :=
  .el fragmentTag none []

/-- A `summary` element wrapping a plain title. -/
def summaryNode (title : String) : DomNode :=
  createElement "summary" none (some title)

/-- Wrap a `details` body into the standard
`div.crash-section > details > [summary, body]` shell. -/
def sectionShell (title : String) (body : DomNode) : DomNode :=
  let details := createElement "details" none none
  let details := appendChild details (summaryNode title)
  let details := appendChild details body
  appendChild (createDiv (some "crash-section") none) details

/-- The string-or-node second argument of the `addRow` closures. -/
inductive RowValue where
  | str (s : String)
  | node (n : DomNode)

/-- The `addRow` closure of `formatProcessInfo` / `formatExtMods`
(structured lines 128-137 and 704-713). -/
def addRow (grid : DomNode) (label : String) (value : RowValue) : DomNode :=
  let grid := appendChild grid (createDiv (some "info-label") (some (label ++ ":")))
  let valueDiv := match value with
    | .str s => createDiv (some "info-value") (some s)
    | .node n => appendChild (createDiv (some "info-value") none) n
  appendChild grid valueDiv

/-- `formatASI` (structured lines 426-451): the key label is repeated
for every element of an array value. -/
def formatASI (asi : List (String × AsiValue)) : DomNode :=
  let grid := createDiv (some "info-grid") none
  let grid := asi.foldl (fun grid kv =>
    match kv.2 with
    | .array xs => xs.foldl (fun grid v =>
        appendChild (appendChild grid (createDiv (some "info-label") (some (kv.1 ++ ":"))))
          (createDiv (some "info-value") (some v))) grid
    | .scalar v =>
        appendChild (appendChild grid (createDiv (some "info-label") (some (kv.1 ++ ":"))))
          (createDiv (some "info-value") (some v))) grid
  sectionShell "Application Specific Information" grid

/-- Backtrace frame image name, structured line 467:
`imageInfo ? imageInfo.name : 'Unknown'`. -/
def backtraceFrameImageName (imageInfo : Option Image) : String :=
  match imageInfo with
  | some img => img.name
  | none => "Unknown"

/-- Backtrace frame address, structured line 468. -/
def backtraceFrameAddress (imageInfo : Option Image) (frame : Frame) : Int :=
  jsOrInt (imageInfo.bind Image.base) 0 + frame.imageOffset

/-- The `frame-details` div of a backtrace frame (structured lines
474-484): the address, then the symbol and `+ symbolLocation` only
when `frame.symbol` is truthy. -/
def backtraceFrameDetails (imageInfo : Option Image) (frame : Frame) : DomNode :=
  let frameDetails := createDiv (some "frame-details") none
  let frameDetails := appendChild frameDetails
    (createAddress (backtraceFrameAddress imageInfo frame))
  match frame.symbol with
  | some sym =>
    if sym = "" then frameDetails
    else
      let frameDetails := appendNodes frameDetails [.txt " ", createSymbol sym]
      match frame.symbolLocation with
      | some loc =>
        let offset := appendNodes (createSpan (some "offset") none)
          [.txt "+ ", createNumber loc]
        appendNodes frameDetails [.txt " ", offset]
      | none => frameDetails
  | none => frameDetails

/-- One backtrace `stack-frame` div (structured lines 465-488). -/
def backtraceFrameNode (imageInfo : Option Image) (index : Nat) (frame : Frame) : DomNode :=
  let stackFrame := createDiv (some "stack-frame") none
  let stackFrame := appendChild stackFrame (createDiv (some "frame-index") (some (toString index)))
  let stackFrame := appendChild stackFrame
    (createDiv (some "frame-image") (some (backtraceFrameImageName imageInfo)))
  appendChild stackFrame (backtraceFrameDetails imageInfo frame)

/-- The `backtrace.forEach` loop of the structured renderer. -/
def renderBacktraceFrames (usedImages : Option (List Image)) (index : Nat) :
    List Frame → Except String (List DomNode)
  | [] => .ok []
  | frame :: rest =>
    match jsIndexImages usedImages frame.imageIndex with
    | .error e => .error e
    | .ok imageInfo =>
      match renderBacktraceFrames usedImages (index + 1) rest with
      | .error e => .error e
      | .ok tail => .ok (backtraceFrameNode imageInfo index frame :: tail)

/-- `formatLastExceptionBacktrace` (structured lines 453-493);
`null` is `none`. -/
def formatLastExceptionBacktrace (r : Report) : Except String (Option DomNode) :=
  match r.lastExceptionBacktrace with
  | none => .ok none
  | some backtrace =>
    if backtrace.length = 0 then .ok none
    else
      match renderBacktraceFrames r.usedImages 0 backtrace with
      | .error e => .error e
      | .ok frames =>
        .ok (some (sectionShell "Last Exception Backtrace"
          (appendNodes (createDiv (some "section-container") none) frames)))

/-- Thread frame image name, structured line 537 (also `'Unknown'`,
unlike the plain-text renderer). -/
def threadFrameImageName (imageInfo : Option Image) : String :=
  match imageInfo with
  | some img => img.name
  | none => "Unknown"

/-- Thread frame address, structured line 538. -/
def threadFrameAddress (imageInfo : Option Image) (frame : Frame) : Int :=
  jsOrInt (imageInfo.bind Image.base) 0 + frame.imageOffset

/-- The `frame-details` div of a thread frame (structured lines 544-554). -/
def threadFrameDetails (imageInfo : Option Image) (frame : Frame) : DomNode :=
  let frameDetails := createDiv (some "frame-details") none
  let frameDetails := appendChild frameDetails
    (createAddress (threadFrameAddress imageInfo frame))
  match frame.symbol with
  | some sym =>
    if sym = "" then frameDetails
    else
      let frameDetails := appendNodes frameDetails [.txt " ", createSymbol sym]
      match frame.symbolLocation with
      | some loc =>
        let offset := appendNodes (createSpan (some "offset") none)
          [.txt "+ ", createNumber loc]
        appendNodes frameDetails [.txt " ", offset]
      | none => frameDetails
  | none => frameDetails

/-- One thread-listing `stack-frame` div (structured lines 535-557). -/
def threadFrameNode (imageInfo : Option Image) (index : Nat) (frame : Frame) : DomNode :=
  let stackFrame := createDiv (some "stack-frame") none
  let stackFrame := appendChild stackFrame (createDiv (some "frame-index") (some (toString index)))
  let stackFrame := appendChild stackFrame
    (createDiv (some "frame-image") (some (threadFrameImageName imageInfo)))
  appendChild stackFrame (threadFrameDetails imageInfo frame)

/-- The `thread.frames.forEach` loop of the structured renderer. -/
def renderThreadFrames (usedImages : Option (List Image)) (index : Nat) :
    List Frame → Except String (List DomNode)
  | [] => .ok []
  | frame :: rest =>
    match jsIndexImages usedImages frame.imageIndex with
    | .error e => .error e
    | .ok imageInfo =>
      match renderThreadFrames usedImages (index + 1) rest with
      | .error e => .error e
      | .ok tail => .ok (threadFrameNode imageInfo index frame :: tail)

/-- The `registers` array of the structured `ARM_THREAD_STATE64`
branch (structured lines 586-604) - the same construction as the
plain-text renderer, duplicated in the source. -/
def armRegisters (state : ThreadState) : List Register :=
  let registers : List Register := []
  let registers := match state.x with
    | some xs => registers ++ xs.enum.map (fun p => { name := "x" ++ toString p.1, object := p.2 })
    | none => registers
  armNamedRegs.foldl (fun regs p =>
    match p.2 state with
    | some o => regs ++ [{ name := p.1, object := o }]
    | none => regs) registers

/-- The `registers` array of the structured `x86_THREAD_STATE` branch
(structured lines 606-621). -/
def x86Registers (state : ThreadState) : List Register :=
  x86RegsLayout.foldl (fun regs p =>
    match p.2 state with
    | some o => regs ++ [{ name := if p.1 = "rflags" then "rfl" else p.1, object := o }]
    | none => regs) []

/-- One `register` div (structured lines 631-643). -/
def registerNode (reg : Register) : DomNode :=
  let registerDiv := createDiv (some "register") none
  let registerDiv := appendChild registerDiv
    (createDiv (some "register-name") (some (reg.name ++ ":")))
  let registerDiv := appendChild registerDiv
    (createDiv (some "register-value")
      (some ("0x" ++ jsPadStart (intToHex reg.object.value) 16 '0')))
  match reg.object.description with
  | some d =>
    if d = "" then registerDiv
    else appendChild registerDiv (createDiv (some "register-desc") (some d))
  | none => registerDiv

/-- `formatThreadState` (structured lines 577-647): `null` in,
`null` out; unknown flavors title `Register State` with no registers. -/
def formatThreadState : Option ThreadState → Option DomNode
  | none => none
  | some state =>
    let (title, registers) :=
      match state.flavor with
      | some "ARM_THREAD_STATE64" => ("ARM Thread State (64-bit)", armRegisters state)
      | some "x86_THREAD_STATE" => ("X86 Thread State (64-bit)", x86Registers state)
      | _ => ("Register State", [])
    let container := createDiv (some "thread-state-container") none
    let container := appendChild container
      (createElement "h4" (some "thread-state-header") (some title))
    let registersGrid := appendNodes (createDiv (some "registers") none)
      (registers.map registerNode)
    some (appendChild container registersGrid)

/-- The thread summary header fragment (structured lines 516-528). -/
def threadSummaryNode (thread : Thread) : DomNode :=
  let summaryFrag := createFragment
  let summaryFrag := appendNodes summaryFrag [.txt "Thread ", createNumber thread.id]
  let summaryFrag := match thread.name with
    | some n => if n = "" then summaryFrag else appendNodes summaryFrag [.txt " - ", .txt n]
    | none => summaryFrag
  let summaryFrag := match thread.queue with
    | some q => if q = "" then summaryFrag else appendNodes summaryFrag [.txt " (", .txt q, .txt ")"]
    | none => summaryFrag
  let summaryFrag := if thread.triggered then appendNodes summaryFrag [.txt " ⚠️ CRASHED"] else summaryFrag
  appendChild (createElement "summary" (some "thread-header") none) summaryFrag

/-- One `thread-item` div (structured lines 507-570). -/
def threadItemNode (usedImages : Option (List Image)) (thread : Thread) :
    Except String DomNode :=
  let threadDetails := createElement "details" none none
  let threadDetails := appendChild threadDetails (threadSummaryNode thread)
  match (match thread.frames with
    | some frames =>
      if frames.length > 0 then
        (match renderThreadFrames usedImages 0 frames with
         | .error e => Except.error e
         | .ok nodes => Except.ok (appendChild threadDetails
             (appendNodes (createDiv (some "frames-container") none) nodes)))
      else Except.ok threadDetails
    | none => Except.ok threadDetails) with
  | .error e => .error e
  | .ok threadDetails =>
    let threadDetails := if thread.triggered then
        match formatThreadState thread.threadState with
        | some node => appendChild threadDetails node
        | none => threadDetails
      else threadDetails
    let threadItem := createDiv
      (some (if thread.triggered then "thread-item crashed" else "thread-item")) none
    .ok (appendChild threadItem threadDetails)

/-- The `threads.forEach` loop of the structured renderer. -/
def renderThreadItems (usedImages : Option (List Image)) :
    List Thread → Except String (List DomNode)
  | [] => .ok []
  | thread :: rest =>
    match threadItemNode usedImages thread with
    | .error e => .error e
    | .ok item =>
      match renderThreadItems usedImages rest with
      | .error e => .error e
      | .ok tail => .ok (item :: tail)

/-- `formatThreads` (structured lines 495-575). -/
def formatThreads (r : Report) : Except String DomNode :=
  let threads := r.threads.getD []
  match renderThreadItems r.usedImages threads with
  | .error e => .error e
  | .ok items =>
    .ok (sectionShell "Threads" (appendNodes (createDiv (some "thread-list") none) items))

/-- One `binary-image` div (structured lines 660-685). -/
def binaryImageNode (image : Image) : DomNode :=
  let base := jsOrInt image.base 0
  let endAddr := base + jsOrInt image.size 0 - 1
  let rangeDiv := createDiv (some "image-range") none
  let rangeDiv := appendChild rangeDiv (createAddress base)
  let rangeDiv := appendChild rangeDiv (.txt " - ")
  let rangeDiv := appendChild rangeDiv (createAddress endAddr)
  let binaryImage := appendChild (createDiv (some "binary-image") none) rangeDiv
  let binaryImage := appendChild binaryImage
    (createDiv (some "image-name") (some (jsOrStrV image.name "???")))
  let detailsDiv := createDiv (some "image-details") none
  let detailsDiv := appendChild detailsDiv (createSpan (some "image-arch") (some (jsOrStr image.arch "unknown")))
  let detailsDiv := appendChild detailsDiv (.txt " ")
  let detailsDiv := appendChild detailsDiv (createSpan (some "image-uuid") (some ("<" ++ jsOrStr image.uuid "" ++ ">")))
  let detailsDiv := appendChild detailsDiv (.txt " ")
  let detailsDiv := appendChild detailsDiv (createSpan (some "image-path") (some (jsOrStr image.path "???")))
  appendChild binaryImage detailsDiv

/-- `formatBinaryImages` (structured lines 649-690): `size === 0`
entries are skipped. -/
def formatBinaryImages (r : Report) : DomNode :=
  let images := r.usedImages.getD []
  let container := images.foldl (fun container image =>
    if image.size = some 0 then container
    else appendChild container (binaryImageNode image)) (createDiv (some "section-container") none)
  sectionShell "Binary Images" container

/-- One counter-group fragment of `formatExtMods` (structured lines
716-728 et seq.). -/
def extModGroupFrag (title : String) (g : ExtModGroup) : DomNode :=
  let frag := appendChild createFragment (createDiv none (some title))
  let frag := match g.task_for_pid with
    | some v => appendChild frag (createDiv none (some ("  task_for_pid: " ++ toString v)))
    | none => frag
  let frag := match g.thread_create with
    | some v => appendChild frag (createDiv none (some ("  thread_create: " ++ toString v)))
    | none => frag
  match g.thread_set_state with
  | some v => appendChild frag (createDiv none (some ("  thread_set_state: " ++ toString v)))
  | none => frag

/-- `formatExtMods` (structured lines 692-766); `null` is `none`. -/
def formatExtMods (r : Report) : Option DomNode :=
  match r.extMods with
  | none => none
  | some extMods =>
    let grid := createDiv (some "info-grid") none
    let grid := match extMods.targeted with
      | some g => addRow grid "Targeted"
          (.node (extModGroupFrag "Calls made by other processes targeting this process:" g))
      | none => grid
    let grid := match extMods.caller with
      | some g => addRow grid "Caller"
          (.node (extModGroupFrag "Calls made by this process:" g))
      | none => grid
    let grid := match extMods.system with
      | some g => addRow grid "System"
          (.node (extModGroupFrag "Calls made by all processes on this machine:" g))
      | none => grid
    some (sectionShell "External Modification Summary" grid)

/-- `formatVMSummary` (structured lines 768-780). -/
def formatVMSummary (r : Report) : DomNode :=
  sectionShell "VM Region Summary" (createDiv (some "vm-summary") (some (r.vmSummary.getD "")))

/-- `formatFilteredLog` (structured lines 782-795). -/
def formatFilteredLog (r : Report) : DomNode :=
  sectionShell "Filtered log messages"
    (createDiv (some "filtered-log") (some (jsJoinNewline (r.filteredLog.getD []))))

end StructuredIPSParser

namespace StructuredIPSParser

/-- JS `reasons.join(', ')`. -/
def joinCommaSpace : List String → String
  | [] => ""
  | [x] => x
  | x :: y :: xs => x ++ ", " ++ joinCommaSpace (y :: xs)

/-- The `Process` row value fragment (structured lines 139-141). -/
def procValueFrag (r : Report) : DomNode :=
  appendNodes createFragment
    [.txt (jsOrStr r.procName "Unknown"), .txt " [", createNumber (jsOrInt r.pid 0), .txt "]"]

/-- The `Parent Process` row value fragment (structured lines 171-176). -/
def parentValueFrag (r : Report) : DomNode :=
  let parentValue := appendChild createFragment (.txt (jsOrStr r.parentProc "Unknown"))
  match r.parentPid with
  | some p => appendNodes parentValue [.txt " [", createNumber p, .txt "]"]
  | none => parentValue

/-- The `Coalition` row value fragment (structured lines 179-184). -/
def coalValueFrag (name : String) (r : Report) : DomNode :=
  let coalValue := appendChild createFragment (.txt name)
  match r.coalitionID with
  | some i => appendNodes coalValue [.txt " [", createNumber i, .txt "]"]
  | none => coalValue

/-- The `Responsible Process` row value fragment (structured lines 188-193). -/
def respValueFrag (name : String) (r : Report) : DomNode :=
  let respValue := appendChild createFragment (.txt name)
  match r.responsiblePid with
  | some i => appendNodes respValue [.txt " [", createNumber i, .txt "]"]
  | none => respValue

/-- The `Apple Intelligence` status text (structured lines 276-280). -/
def aiStatusText (aiStatus : AIStatus) : String :=
  jsOrStr aiStatus.state "unknown"
  ++ (match aiStatus.reasons with
    | some reasons => " (" ++ joinCommaSpace reasons ++ ")"
    | none => "")

def rowIfStr (grid : DomNode) (o : Option String) (label : String) : DomNode :=
  match o with
  | some s => if s = "" then grid else addRow grid label (.str s)
  | none => grid

def rowIfInt (grid : DomNode) (o : Option Int) (label : String) : DomNode :=
  match o with
  | some v => addRow grid label (.str (toString v))
  | none => grid

def rowIfHex (grid : DomNode) (o : Option Int) (label : String) : DomNode :=
  match o with
  | some v => addRow grid label (.str ("0x" ++ intToHex v))
  | none => grid

def rowIfYesNo (grid : DomNode) (o : Option Bool) (label : String) : DomNode :=
  match o with
  | some b => addRow grid label (.str (if b then "YES" else "NO"))
  | none => grid

/-- The `info-grid` of `formatProcessInfo` (structured lines 126-330). -/
def processInfoGrid (r : Report) : DomNode :=
  let bundleInfo := r.bundleInfo.getD {}
  let buildInfo := r.buildInfo.getD {}
  let storeInfo := r.storeInfo.getD {}
  let osVersion := r.osVersion.getD {}
  let grid := createDiv (some "info-grid") none
  let grid := addRow grid "Process" (.node (procValueFrag r))
  let grid := addRow grid "Path" (.str (jsOrStr r.procPath "Unknown"))
  let grid := addRow grid "Identifier" (.str (jsOrStr bundleInfo.CFBundleIdentifier "Unknown"))
  let grid := addRow grid "Version" (.str (jsOrStr bundleInfo.CFBundleShortVersionString "?"
    ++ " (" ++ jsOrStr bundleInfo.CFBundleVersion "?" ++ ")"))
  let grid := rowIfStr grid bundleInfo.DTAppStoreToolsBuild "AppStoreTools"
  let grid := rowIfStr grid storeInfo.applicationVariant "AppVariant"
  let grid := rowIfYesNo grid r.isBeta "Beta"
  let grid := if strTruthy buildInfo.ProjectName && strTruthy buildInfo.SourceVersion
      && strTruthy buildInfo.BuildVersion then
    addRow grid "Build Info" (.str (buildInfo.ProjectName.getD "" ++ "-"
      ++ buildInfo.SourceVersion.getD "" ++ "~" ++ buildInfo.BuildVersion.getD ""))
  else grid
  let grid := addRow grid "Code Type" (.str (jsOrStr r.cpuType "Unknown"
    ++ " (" ++ (if r.translated.getD false then "Translated" else "Native") ++ ")"))
  let grid := rowIfStr grid r.procRole "Role"
  let grid := addRow grid "Parent Process" (.node (parentValueFrag r))
  let grid := match r.coalitionName with
    | some n => if n = "" then grid else addRow grid "Coalition" (.node (coalValueFrag n r))
    | none => grid
  let grid := match r.responsibleProc with
    | some n => if n = "" then grid else addRow grid "Responsible Process" (.node (respValueFrag n r))
    | none => grid
  let grid := rowIfInt grid r.userID "User ID"
  let grid := addRow grid "Date/Time" (.str (jsOrStr r.captureTime "Unknown"))
  let grid := rowIfStr grid r.procLaunch "Launch Time"
  let grid := rowIfInt grid r.procStartAbsTime "Process Start (Absolute)"
  let grid := rowIfInt grid r.procExitAbsTime "Process Exit (Absolute)"
  let grid := rowIfStr grid r.modelCode "Hardware Model"
  let grid := rowIfStr grid r.codeName "Device Model"
  let grid := addRow grid "OS Version" (.str (jsOrStr osVersion.train "Unknown"
    ++ " (" ++ jsOrStr osVersion.build "Unknown" ++ ")"))
  let grid := rowIfStr grid osVersion.releaseType "Release Type"
  let grid := rowIfStr grid r.basebandVersion "Baseband Version"
  let grid := rowIfStr grid r.crashReporterKey "Crash Reporter Key"
  let grid := rowIfStr grid r.bootSessionUUID "Boot Session UUID"
  let grid := rowIfStr grid r.sleepWakeUUID "Sleep/Wake UUID"
  let grid := rowIfStr grid storeInfo.deviceIdentifierForVendor "Beta Identifier"
  let grid := rowIfStr grid r.systemID "UDID"
  let grid := rowIfStr grid r.incident "Incident ID"
  let grid := match r.uptime with
    | some u => addRow grid "Uptime"
        (.node (appendNodes createFragment [createNumber u, .txt " seconds"]))
    | none => grid
  let grid := match r.wakeTime with
    | some w => addRow grid "Time Since Wake"
        (.node (appendNodes createFragment [createNumber w, .txt " seconds"]))
    | none => grid
  let grid := match r.sip with
    | some s => addRow grid "System Integrity Protection" (.str s)
    | none => grid
  let grid := match r.developerMode with
    | some b => addRow grid "Developer Mode" (.str (if b then "enabled" else "disabled"))
    | none => grid
  let grid := match r.appleIntelligenceStatus with
    | some aiStatus => addRow grid "Apple Intelligence" (.str (aiStatusText aiStatus))
    | none => grid
  let grid := rowIfInt grid r.deployVersion "Deploy Version"
  let grid := rowIfInt grid r.throttleTimeout "Throttle Timeout"
  let grid := rowIfInt grid r.codeSigningMonitor "Code Signing Monitor"
  let grid := match r.codeSigningID with
    | some s => addRow grid "Code Signing ID" (.str (jsOrStrV s "(none)"))
    | none => grid
  let grid := match r.codeSigningTeamID with
    | some s => addRow grid "Code Signing Team ID" (.str (jsOrStrV s "(none)"))
    | none => grid
  let grid := rowIfHex grid r.codeSigningFlags "Code Signing Flags"
  let grid := rowIfInt grid r.codeSigningValidationCategory "Code Signing Validation"
  let grid := rowIfInt grid r.codeSigningTrustLevel "Code Signing Trust Level"
  let grid := rowIfHex grid r.codeSigningAuxiliaryInfo "Code Signing Auxiliary"
  let grid := match r.bootProgressRegister with
    | some s => addRow grid "Boot Progress Register" (.str s)
    | none => grid
  let grid := rowIfYesNo grid r.wasUnlockedSinceBoot "Unlocked Since Boot"
  let grid := rowIfYesNo grid r.isLocked "Currently Locked"
  grid

/-- `formatProcessInfo` (structured lines 113-333). -/
def formatProcessInfo (r : Report) : DomNode :=
  sectionShell "Process Information" (processInfoGrid r)

/-- The `exception-info` div of the structured `formatException`
(structured lines 346-419). -/
def exceptionInfoDiv (r : Report) : DomNode :=
  let ex := r.exception.getD {}
  let exceptionInfo := createDiv (some "exception-info") none
  let exceptionInfo := appendChild exceptionInfo
    (createDiv (some "exception-type")
      (some (jsOrStr ex.type "Unknown" ++ ifStr ex.signal (fun s => " (" ++ s ++ ")"))))
  let exceptionInfo := match ex.subtype with
    | some s => appendChild exceptionInfo (createDiv (some "exception-detail") (some ("Subtype: " ++ s)))
    | none => exceptionInfo
  let exceptionInfo := match ex.codes with
    | some s => appendChild exceptionInfo (createDiv (some "exception-detail") (some ("Codes: " ++ s)))
    | none => exceptionInfo
  let exceptionInfo := match ex.message with
    | some s =>
      if s = "" then exceptionInfo
      else appendChild exceptionInfo (createDiv (some "exception-detail") (some ("Message: " ++ s)))
    | none => exceptionInfo
  let exceptionInfo := match r.termination with
    | some term =>
      let termFrag := appendNodes createFragment
        [.txt "Termination: Namespace ", .txt (jsOrStr term.nspace "Unknown"),
         .txt ", Code ", createNumber (jsOrInt term.code 0)]
      let termFrag := match term.indicator with
        | some ind => if ind = "" then termFrag else appendNodes termFrag [.txt ", ", .txt ind]
        | none => termFrag
      let termDetail := appendChild (createDiv (some "exception-detail spaced") none) termFrag
      let exceptionInfo := appendChild exceptionInfo termDetail
      match term.byProc with
      | some p =>
        if p = "" then exceptionInfo
        else
          let procFrag := appendNodes createFragment
            [.txt "Terminating Process: ", .txt p, .txt " [", createNumber (jsOrInt term.byPid 0), .txt "]"]
          appendChild exceptionInfo (appendChild (createDiv (some "exception-detail") none) procFrag)
      | none => exceptionInfo
    | none => exceptionInfo
  let exceptionInfo := match r.vmRegionInfo with
    | some s =>
      if s = "" then exceptionInfo
      else appendChild exceptionInfo
        (createDiv (some "exception-detail spaced") (some ("VM Region Info: " ++ s)))
    | none => exceptionInfo
  let exceptionInfo := match r.instructionByteStream with
    | some inst =>
      let instFrag := appendChild createFragment (.txt "Instruction Bytes:")
      let instFrag := match inst.beforePC with
        | some s => if s = "" then instFrag else appendNodes instFrag [.txt "\n  Before PC: ", .txt s]
        | none => instFrag
      let instFrag := match inst.atPC with
        | some s => if s = "" then instFrag else appendNodes instFrag [.txt "\n  At PC: ", .txt s]
        | none => instFrag
      appendChild exceptionInfo (appendChild (createDiv (some "exception-detail spaced") none) instFrag)
    | none => exceptionInfo
  match r.faultingThread with
  | some ft =>
    let faultFrag := appendNodes createFragment [.txt "Faulting Thread: ", createNumber ft]
    appendChild exceptionInfo (appendChild (createDiv (some "exception-detail spaced") none) faultFrag)
  | none => exceptionInfo

/-- `formatException` (structured lines 335-424). -/
def formatException (r : Report) : DomNode :=
  sectionShell "Exception Information" (exceptionInfoDiv r)

/-- `formatReport` (structured lines 65-111), minus the not-parsed
guard, which lives on `formatReportS` below. Appending the `null`
returned by `formatLastExceptionBacktrace` on a present-but-empty
backtrace is a `TypeError`. -/
def formatReport (r : Report) : Except String DomNode :=
  let container := createFragment
  let container := appendChild container (formatProcessInfo r)
  let container := appendChild container (formatException r)
  let container := match r.asi with
    | some asi => appendChild container (formatASI asi)
    | none => container
  match (match r.lastExceptionBacktrace with
    | some _ =>
      (match formatLastExceptionBacktrace r with
       | .error e => Except.error e
       | .ok (some node) => Except.ok (appendChild container node)
       | .ok none => Except.error "Failed to execute appendChild on Node: parameter 1 is not of type Node.")
    | none => Except.ok container) with
  | .error e => .error e
  | .ok container =>
    match formatThreads r with
    | .error e => .error e
    | .ok threadsSection =>
      let container := appendChild container threadsSection
      let container := appendChild container (formatBinaryImages r)
      let container := match formatExtMods r with
        | some sec => appendChild container sec
        | none => container
      let container := if strTruthy r.vmSummary then appendChild container (formatVMSummary r) else container
      let container := match r.filteredLog with
        | some log => if log.length > 0 then appendChild container (formatFilteredLog r) else container
        | none => container
      .ok container

/-- `StructuredIPSParser.formatReport`, instance-level: the not-parsed
guard of structured lines 66-68, then the builder on the stored report. -/
def formatReportS (st : IPSParserState) : Except String DomNode :=
  match st.metadata, st.report with
  | some m, some r =>
    if m.truthy && r.truthy then formatReport (reportOfJson r)
    else .error "Report not parsed. Call parse() first."
  | _, _ => .error "Report not parsed. Call parse() first."

end StructuredIPSParser

/-! ## Decoder theorems -/

/-- C10: calling `formatReport` while `this.metadata` or `this.report`
is still `null` throws `Report not parsed. Call parse() first.`, in
both the plain-text and the structured renderer. -/
theorem formatReport_requires_parse (st : IPSParserState)
    (h : st.metadata = none ∨ st.report = none) :
    IPSParser.formatReportS st = .error "Report not parsed. Call parse() first." ∧
    StructuredIPSParser.formatReportS st = .error "Report not parsed. Call parse() first." := by
  rcases h with h | h <;>
    cases hm : st.metadata <;> cases hr : st.report <;>
      simp_all [IPSParser.formatReportS, StructuredIPSParser.formatReportS]

/-- Witness: the freshly constructed parser state refuses to render. -/
theorem formatReport_requires_parse_witness :
    ({} : IPSParserState).metadata = none ∧
    IPSParser.formatReportS {} = .error "Report not parsed. Call parse() first." ∧
    StructuredIPSParser.formatReportS {} = .error "Report not parsed. Call parse() first." :=
  ⟨rfl, (formatReport_requires_parse {} (Or.inl rfl)).1,
    (formatReport_requires_parse {} (Or.inl rfl)).2⟩

/-- C6 (amended): a decode failure surfaces the error immediately, but
the instance retains every field assigned before the throw: nothing
after a line-count or metadata-JSON failure, the parsed `Metadata`
after a report-JSON failure, and both `Metadata` and `Report` after a
failed `bug_type` check. -/
theorem parse_failure_state_characterization (raw : String) (st : IPSParserState) :
    ((jsSplitNewline (jsTrim raw)).length < 2 →
      (IPSParser.parse raw st).1 = st ∧
      (IPSParser.parse raw st).2 = .error "Failed to parse IPS file: Invalid IPS file format. Expected at least 2 lines (metadata + report).") ∧
    (∀ e, ¬ (jsSplitNewline (jsTrim raw)).length < 2 →
      jsonParse ((jsSplitNewline (jsTrim raw)).getD 0 "") = .error e →
      (IPSParser.parse raw st).1 = st ∧
      (IPSParser.parse raw st).2 = .error ("Failed to parse IPS file: " ++ e)) ∧
    (∀ m e, ¬ (jsSplitNewline (jsTrim raw)).length < 2 →
      jsonParse ((jsSplitNewline (jsTrim raw)).getD 0 "") = .ok m →
      jsonParse (jsJoinNewline ((jsSplitNewline (jsTrim raw)).drop 1)) = .error e →
      (IPSParser.parse raw st).1 = { st with metadata := some m } ∧
      (IPSParser.parse raw st).2 = .error ("Failed to parse IPS file: " ++ e)) ∧
    (∀ m r e, ¬ (jsSplitNewline (jsTrim raw)).length < 2 →
      jsonParse ((jsSplitNewline (jsTrim raw)).getD 0 "") = .ok m →
      jsonParse (jsJoinNewline ((jsSplitNewline (jsTrim raw)).drop 1)) = .ok r →
      m.getProp "bug_type" = .error e →
      (IPSParser.parse raw st).1 = { st with metadata := some m, report := some r } ∧
      (IPSParser.parse raw st).2 = .error ("Failed to parse IPS file: " ++ e)) ∧
    (∀ m r v, ¬ (jsSplitNewline (jsTrim raw)).length < 2 →
      jsonParse ((jsSplitNewline (jsTrim raw)).getD 0 "") = .ok m →
      jsonParse (jsJoinNewline ((jsSplitNewline (jsTrim raw)).drop 1)) = .ok r →
      m.getProp "bug_type" = .ok v → isBugType309 v = false →
      (IPSParser.parse raw st).1 = { st with metadata := some m, report := some r } ∧
      (IPSParser.parse raw st).2 = .error ("Failed to parse IPS file: Not a crash report (bug_type: "
        ++ jsInterpOpt v ++ "). Expected bug_type \"309\".")) := by
  refine ⟨fun h => ?_, fun e h h0 => ?_, fun m e h h0 h1 => ?_,
    fun m r e h h0 h1 h2 => ?_, fun m r v h h0 h1 h2 h3 => ?_⟩
  · simp only [IPSParser.parse]
    rw [if_pos h]
    exact ⟨rfl, rfl⟩
  · simp only [IPSParser.parse]
    rw [if_neg h, h0]
    exact ⟨rfl, rfl⟩
  · simp only [IPSParser.parse]
    rw [if_neg h, h0, h1]
    exact ⟨rfl, rfl⟩
  · simp only [IPSParser.parse]
    rw [if_neg h, h0, h1]
    dsimp only
    rw [h2]
    exact ⟨rfl, rfl⟩
  · simp only [IPSParser.parse]
    rw [if_neg h, h0, h1]
    dsimp only
    rw [h2]
    dsimp only
    rw [h3]
    exact ⟨rfl, rfl⟩

/-- Witness for C6: a wrong-bug-type input leaves both fields set. -/
theorem parse_failure_state_characterization_witness :
    (IPSParser.parse "\x7b\"bug_type\":\"1\"\x7d\n\x7b\x7d" {}).1 =
      { metadata := some (Json.obj [("bug_type", Json.str "1")])
        report := some (Json.obj []) } ∧
    (IPSParser.parse "\x7b\"bug_type\":\"1\"\x7d\n\x7b\x7d" {}).2 =
      .error "Failed to parse IPS file: Not a crash report (bug_type: 1). Expected bug_type \"309\"." :=
  (parse_failure_state_characterization "\x7b\"bug_type\":\"1\"\x7d\n\x7b\x7d" {}).2.2.2.2
    (Json.obj [("bug_type", Json.str "1")]) (Json.obj []) (some (Json.str "1"))
    (by decide) (by rfl) (by rfl) (by rfl) (by rfl)

/-- Counterexample to C6 as stated: after `parse` fails the bug_type
check, the parser instance exposes the parsed `Metadata` and `Report`,
and `formatReport` then renders successfully. -/
theorem parse_failure_exposes_partial_state :
    (IPSParser.parse "\x7b\"bug_type\":\"1\"\x7d\n\x7b\x7d" {}).2 =
      .error "Failed to parse IPS file: Not a crash report (bug_type: 1). Expected bug_type \"309\"." ∧
    (IPSParser.parse "\x7b\"bug_type\":\"1\"\x7d\n\x7b\x7d" {}).1.metadata =
      some (Json.obj [("bug_type", Json.str "1")]) ∧
    (IPSParser.parse "\x7b\"bug_type\":\"1\"\x7d\n\x7b\x7d" {}).1.report =
      some (Json.obj []) ∧
    (IPSParser.formatReportS (IPSParser.parse "\x7b\"bug_type\":\"1\"\x7d\n\x7b\x7d" {}).1).toOption.isSome = true := by
  refine ⟨rfl, rfl, rfl, ?_⟩
  rfl

/-- C3 (amended): `decode` fails for each of the four malformed-input
classes. The line-count message and the bug_type message identify
their phase in words; a JSON syntax failure, in either phase, is
reported as the wrapped underlying JSON error only, so the message does
not say whether the metadata line or the report body failed. -/
theorem parse_failure_modes (raw : String) (st : IPSParserState) :
    ((jsSplitNewline (jsTrim raw)).length < 2 →
      (IPSParser.parse raw st).2 = .error "Failed to parse IPS file: Invalid IPS file format. Expected at least 2 lines (metadata + report).") ∧
    (∀ e, ¬ (jsSplitNewline (jsTrim raw)).length < 2 →
      jsonParse ((jsSplitNewline (jsTrim raw)).getD 0 "") = .error e →
      (IPSParser.parse raw st).2 = .error ("Failed to parse IPS file: " ++ e)) ∧
    (∀ m e, ¬ (jsSplitNewline (jsTrim raw)).length < 2 →
      jsonParse ((jsSplitNewline (jsTrim raw)).getD 0 "") = .ok m →
      jsonParse (jsJoinNewline ((jsSplitNewline (jsTrim raw)).drop 1)) = .error e →
      (IPSParser.parse raw st).2 = .error ("Failed to parse IPS file: " ++ e)) ∧
    (∀ m r v, ¬ (jsSplitNewline (jsTrim raw)).length < 2 →
      jsonParse ((jsSplitNewline (jsTrim raw)).getD 0 "") = .ok m →
      jsonParse (jsJoinNewline ((jsSplitNewline (jsTrim raw)).drop 1)) = .ok r →
      m.getProp "bug_type" = .ok v → isBugType309 v = false →
      (IPSParser.parse raw st).2 = .error ("Failed to parse IPS file: Not a crash report (bug_type: "
        ++ jsInterpOpt v ++ "). Expected bug_type \"309\".")) := by
  refine ⟨fun h => ?_, fun e h h0 => ?_, fun m e h h0 h1 => ?_,
    fun m r v h h0 h1 h2 h3 => ?_⟩
  · simp only [IPSParser.parse]
    rw [if_pos h]
  · simp only [IPSParser.parse]
    rw [if_neg h, h0]
  · simp only [IPSParser.parse]
    rw [if_neg h, h0, h1]
  · simp only [IPSParser.parse]
    rw [if_neg h, h0, h1]
    dsimp only
    rw [h2]
    dsimp only
    rw [h3]
    rfl

/-- Counterexample to the phase-naming part of C3: a bad metadata line
and a bad report body produce the very same error message - the two
decode results are equal - even though the first input fails in the
metadata phase (no `Metadata` was assigned) and the second in the
report phase (the parsed `Metadata` was assigned). -/
theorem parse_json_error_message_phase_blind :
    (IPSParser.parse "bad\n\x7b\x7d" {}).2 = (IPSParser.parse "\x7b\x7d\nbad" {}).2 ∧
    (IPSParser.parse "bad\n\x7b\x7d" {}).1.metadata = none ∧
    (IPSParser.parse "\x7b\x7d\nbad" {}).1.metadata = some (Json.obj []) :=
  ⟨rfl, rfl, rfl⟩

/-- Witness for C3: the spec example `decode("single line only")`
fails with the line-count message, and `decode('\x7b"bug_type":"1"\x7d\n\x7b\x7d')`
fails with the bug_type message. -/
theorem parse_failure_modes_witness :
    (jsSplitNewline (jsTrim "single line only")).length < 2 ∧
    (IPSParser.parse "single line only" {}).2 =
      .error "Failed to parse IPS file: Invalid IPS file format. Expected at least 2 lines (metadata + report)." ∧
    (IPSParser.parse "\x7b\"bug_type\":\"1\"\x7d\n\x7b\x7d" {}).2 =
      .error "Failed to parse IPS file: Not a crash report (bug_type: 1). Expected bug_type \"309\"." :=
  ⟨by decide,
    (parse_failure_modes "single line only" {}).1 (by decide),
    (parse_failure_modes "\x7b\"bug_type\":\"1\"\x7d\n\x7b\x7d" {}).2.2.2
      (Json.obj [("bug_type", Json.str "1")]) (Json.obj []) (some (Json.str "1"))
      (by decide) (by rfl) (by rfl) (by rfl) (by rfl)⟩

/-! ## Frame-resolution theorems -/

/-- An out-of-range or negative index into `usedImages` yields
`undefined`. -/
theorem imageLookup_eq_none (images : List Image) (i : Int)
    (h : i < 0 ∨ (images.length : Int) ≤ i) : imageLookup images i = none := by
  rcases h with h | h
  · simp [imageLookup, h]
  · have h0 : ¬ i < 0 := by omega
    simp only [imageLookup, if_neg h0]
    exact List.get?_eq_none.2 (by omega)

/-- Counterexample to C1 as stated: in the plain-text thread listing
(core line 341) an out-of-range `imageIndex` resolves to the image
name `???`, not `Unknown`. -/
theorem threadFrame_unknown_name_cex :
    imageLookup [] (5 : Int) = none ∧
    IPSParser.threadFrameImageName (imageLookup [] (5 : Int)) = "???" ∧
    IPSParser.threadFrameImageName (imageLookup [] (5 : Int)) ≠ "Unknown" :=
  ⟨rfl, rfl, by decide⟩

/-- C1 (amended): every rendered frame resolves its address as
`base(image) + imageOffset` with the base defaulting to 0 when the
image is missing, and an out-of-range or negative `imageIndex` resolves
the image name to `Unknown` in the last-exception backtrace (both
renderers) and the DOM thread listing, but to `???` in the plain-text
thread listing; none of these computations can fail. -/
theorem frame_resolution_address_and_unknown (images : List Image) (frame : Frame) :
    (IPSParser.backtraceFrameAddress (imageLookup images frame.imageIndex) frame
        = (match imageLookup images frame.imageIndex with
           | some img => jsOrInt img.base 0
           | none => 0) + frame.imageOffset
      ∧ IPSParser.threadFrameAddress (imageLookup images frame.imageIndex) frame
        = (match imageLookup images frame.imageIndex with
           | some img => jsOrInt img.base 0
           | none => 0) + frame.imageOffset
      ∧ StructuredIPSParser.backtraceFrameAddress (imageLookup images frame.imageIndex) frame
        = (match imageLookup images frame.imageIndex with
           | some img => jsOrInt img.base 0
           | none => 0) + frame.imageOffset
      ∧ StructuredIPSParser.threadFrameAddress (imageLookup images frame.imageIndex) frame
        = (match imageLookup images frame.imageIndex with
           | some img => jsOrInt img.base 0
           | none => 0) + frame.imageOffset) ∧
    (frame.imageIndex < 0 ∨ (images.length : Int) ≤ frame.imageIndex →
      imageLookup images frame.imageIndex = none ∧
      IPSParser.backtraceFrameImageName (imageLookup images frame.imageIndex) = "Unknown" ∧
      StructuredIPSParser.backtraceFrameImageName (imageLookup images frame.imageIndex) = "Unknown" ∧
      StructuredIPSParser.threadFrameImageName (imageLookup images frame.imageIndex) = "Unknown" ∧
      IPSParser.threadFrameImageName (imageLookup images frame.imageIndex) = "???" ∧
      IPSParser.backtraceFrameAddress (imageLookup images frame.imageIndex) frame = frame.imageOffset ∧
      IPSParser.threadFrameAddress (imageLookup images frame.imageIndex) frame = frame.imageOffset ∧
      StructuredIPSParser.backtraceFrameAddress (imageLookup images frame.imageIndex) frame = frame.imageOffset ∧
      StructuredIPSParser.threadFrameAddress (imageLookup images frame.imageIndex) frame = frame.imageOffset) := by
  constructor
  · cases h : imageLookup images frame.imageIndex <;>
      simp [IPSParser.backtraceFrameAddress, IPSParser.threadFrameAddress,
        StructuredIPSParser.backtraceFrameAddress, StructuredIPSParser.threadFrameAddress,
        h, jsOrInt]
  · intro h
    have hn := imageLookup_eq_none images frame.imageIndex h
    rw [hn]
    refine ⟨rfl, rfl, rfl, rfl, rfl, ?_, ?_, ?_, ?_⟩ <;>
      simp [IPSParser.backtraceFrameAddress, IPSParser.threadFrameAddress,
        StructuredIPSParser.backtraceFrameAddress, StructuredIPSParser.threadFrameAddress,
        jsOrInt]

/-- Witness for C1: the spec example - one image at `0x1000`, an
in-range frame at offset `0x10` resolves to `0x1010`; an out-of-range
frame at index 5 resolves name `Unknown` (backtrace) and address
`0x10`. -/
theorem frame_resolution_address_and_unknown_witness :
    IPSParser.backtraceFrameAddress
      (imageLookup [{ base := some 4096, size := some 256, name := "A" }]
        (Frame.mk 0 16 none none).imageIndex) (Frame.mk 0 16 none none) = 4112 ∧
    IPSParser.backtraceFrameImageName
      (imageLookup [{ base := some 4096, size := some 256, name := "A" }]
        (Frame.mk 5 16 none none).imageIndex) = "Unknown" ∧
    IPSParser.backtraceFrameAddress
      (imageLookup [{ base := some 4096, size := some 256, name := "A" }]
        (Frame.mk 5 16 none none).imageIndex) (Frame.mk 5 16 none none) = 16 := by
  refine ⟨?_, ?_, ?_⟩
  · have h := (frame_resolution_address_and_unknown
      [{ base := some 4096, size := some 256, name := "A" }] (Frame.mk 0 16 none none)).1.1
    rw [h]; rfl
  · exact ((frame_resolution_address_and_unknown
      [{ base := some 4096, size := some 256, name := "A" }] (Frame.mk 5 16 none none)).2
        (by decide)).2.1
  · exact ((frame_resolution_address_and_unknown
      [{ base := some 4096, size := some 256, name := "A" }] (Frame.mk 5 16 none none)).2
        (by decide)).2.2.2.2.2.1

/-- Counterexample to C4 as stated: for a thread frame whose image is
out of range and whose `symbol` is absent, the plain-text renderer and
the DOM renderer disagree on the image name (`???` vs `Unknown`) and on
the label text (the plain text synthesizes the `0xbase + offset`
fallback; the DOM emits only the padded address). -/
theorem renderers_frame_resolution_differ :
    IPSParser.threadFrameImageName (imageLookup [] (5 : Int)) = "???" ∧
    StructuredIPSParser.threadFrameImageName (imageLookup [] (5 : Int)) = "Unknown" ∧
    IPSParser.threadFrameImageName (imageLookup [] (5 : Int)) ≠
      StructuredIPSParser.threadFrameImageName (imageLookup [] (5 : Int)) ∧
    IPSParser.threadFrameSymbol (imageLookup [] (5 : Int)) (Frame.mk 5 16 none none) = "0x0 + 16" ∧
    (StructuredIPSParser.threadFrameDetails (imageLookup [] (5 : Int))
      (Frame.mk 5 16 none none)).textContent = "0x0000000000000010" ∧
    IPSParser.threadFrameLine (imageLookup [] (5 : Int)) 0 (Frame.mk 5 16 none none) ≠
      (StructuredIPSParser.threadFrameNode (imageLookup [] (5 : Int)) 0
        (Frame.mk 5 16 none none)).textContent :=
  ⟨rfl, rfl, by decide, rfl, rfl, by decide⟩

/-- C4 (amended): the plain-text and DOM renderers agree on the
resolved address for every thread and backtrace frame, and on the
image name for backtrace frames; thread-listing names agree whenever
the image is found and carries a nonempty name. Labels are not
byte-identical in general (see the counterexample). -/
theorem renderers_frame_address_agree (imageInfo : Option Image) (frame : Frame) :
    IPSParser.threadFrameAddress imageInfo frame
      = StructuredIPSParser.threadFrameAddress imageInfo frame ∧
    IPSParser.backtraceFrameAddress imageInfo frame
      = StructuredIPSParser.backtraceFrameAddress imageInfo frame ∧
    IPSParser.backtraceFrameImageName imageInfo
      = StructuredIPSParser.backtraceFrameImageName imageInfo ∧
    (∀ img, imageInfo = some img → img.name ≠ "" →
      IPSParser.threadFrameImageName imageInfo
        = StructuredIPSParser.threadFrameImageName imageInfo) := by
  refine ⟨rfl, rfl, ?_, ?_⟩
  · cases imageInfo <;> rfl
  · rintro img rfl hname
    simp [IPSParser.threadFrameImageName, StructuredIPSParser.threadFrameImageName,
      jsOrStr, hname]

/-- Witness for C4: a found, named image gives the same name and
address in both renderers. -/
theorem renderers_frame_address_agree_witness :
    IPSParser.threadFrameAddress (some { base := some 4096, name := "A" }) (Frame.mk 0 16 none none)
      = StructuredIPSParser.threadFrameAddress (some { base := some 4096, name := "A" }) (Frame.mk 0 16 none none) ∧
    IPSParser.threadFrameImageName (some { base := some 4096, name := "A" })
      = StructuredIPSParser.threadFrameImageName (some { base := some 4096, name := "A" }) :=
  ⟨(renderers_frame_address_agree (some { base := some 4096, name := "A" }) (Frame.mk 0 16 none none)).1,
    (renderers_frame_address_agree (some { base := some 4096, name := "A" }) (Frame.mk 0 16 none none)).2.2.2
      { base := some 4096, name := "A" } rfl (by decide)⟩

/-! ## Thread-state register theorems -/

/-- The register-push fold appends exactly the present registers of the
layout, in layout order. -/
theorem pushRegs_foldl (state : ThreadState)
    (l : List (String × (ThreadState → Option RegObject))) (init : List Register) :
    l.foldl (fun regs p =>
      match p.2 state with
      | some o => regs ++ [{ name := p.1, object := o }]
      | none => regs) init
    = init ++ l.filterMap (fun p => (p.2 state).map (fun o => { name := p.1, object := o })) := by
  induction l generalizing init with
  | nil => simp
  | cons a rest ih =>
    cases h : a.2 state with
    | none => simp [List.foldl_cons, h, ih]
    | some o => simp [List.foldl_cons, h, ih]

/-- C5: for an `ARM_THREAD_STATE64` state, both builders produce one
register row per register present in the input - the `x` registers in
index order, then the present named registers in the fixed
`fp, lr, sp, pc, cpsr, far, esr` order; absent registers are omitted
and a register present with value 0 still yields its row, as
`formatThreadState` then renders. -/
theorem armThreadState_register_rows (state : ThreadState)
    (h : state.flavor = some "ARM_THREAD_STATE64") :
    IPSParser.armRegisters state =
      (state.x.getD []).enum.map (fun p => { name := "x" ++ toString p.1, object := p.2 }) ++
      armNamedRegs.filterMap (fun p => (p.2 state).map (fun o => { name := p.1, object := o })) ∧
    StructuredIPSParser.armRegisters state = IPSParser.armRegisters state ∧
    (∀ o, state.pc = some o → (Register.mk "pc" o) ∈ IPSParser.armRegisters state) ∧
    (∀ thread threadNum, thread.threadState = some state →
      IPSParser.formatThreadState thread threadNum =
        "\nThread " ++ toString threadNum ++ " crashed with ARM Thread State (64-bit):\n"
        ++ IPSParser.renderRegisterLines (IPSParser.armRegisters state) ++ "\n") := by
  have hchar : IPSParser.armRegisters state =
      (state.x.getD []).enum.map (fun p => { name := "x" ++ toString p.1, object := p.2 }) ++
      armNamedRegs.filterMap (fun p => (p.2 state).map (fun o => { name := p.1, object := o })) := by
    cases hx : state.x <;>
      simp [IPSParser.armRegisters, hx, pushRegs_foldl]
  refine ⟨hchar, rfl, ?_, ?_⟩
  · intro o hpc
    rw [hchar]
    refine List.mem_append_right _ (List.mem_filterMap.2 ⟨("pc", ThreadState.pc), ?_, ?_⟩)
    · simp [armNamedRegs]
    · simp [hpc]
  · intro thread threadNum hts
    simp [IPSParser.formatThreadState, hts, h]

/-- Witness for C5: a state containing only `pc` (value 0) and `sp`
yields exactly two rows, `sp` before `pc`, with the zero-valued `pc`
row present. -/
theorem armThreadState_register_rows_witness :
    IPSParser.armRegisters
      { flavor := some "ARM_THREAD_STATE64"
        sp := some { value := 1 }, pc := some { value := 0 } } =
      [{ name := "sp", object := { value := 1 } },
       { name := "pc", object := { value := 0 } }] := by
  have h := (armThreadState_register_rows
    { flavor := some "ARM_THREAD_STATE64"
      sp := some { value := 1 }, pc := some { value := 0 } } rfl).1
  rw [h]
  rfl

/-! ## Binary-images theorems -/

/-- Skipping `size === 0` entries inside the render loop equals
rendering the filtered list. -/
theorem binaryRows_skip_eq_filter (l : List Image) :
    sjoin (l.map (fun image =>
      if image.size = some 0 then "" else IPSParser.binaryImageRow image)) =
    sjoin ((l.filter (fun image => decide (image.size ≠ some 0))).map IPSParser.binaryImageRow) := by
  induction l with
  | nil => rfl
  | cons a rest ih =>
    by_cases h : a.size = some 0 <;> simp [sjoin, h, ih]

/-- C8: every `usedImages` entry with `size = 0` is excluded from the
rendered Binary Images section, whatever its other fields - the section
equals the one rendered from the filtered list - while any entry an
`imageIndex` resolves to, a placeholder included, still supplies its
name and base address. -/
theorem binaryImages_size_zero_excluded (r : Report) (imgs : List Image)
    (h : r.usedImages = some imgs) :
    IPSParser.formatBinaryImages r =
      "\nBinary Images:\n"
      ++ sjoin ((imgs.filter (fun image => decide (image.size ≠ some 0))).map IPSParser.binaryImageRow) ∧
    (∀ frame img, imageLookup imgs frame.imageIndex = some img →
      IPSParser.backtraceFrameImageName (imageLookup imgs frame.imageIndex) = img.name ∧
      IPSParser.backtraceFrameAddress (imageLookup imgs frame.imageIndex) frame
        = jsOrInt img.base 0 + frame.imageOffset ∧
      IPSParser.threadFrameAddress (imageLookup imgs frame.imageIndex) frame
        = jsOrInt img.base 0 + frame.imageOffset) := by
  constructor
  · simp only [IPSParser.formatBinaryImages, h, Option.getD_some]
    rw [binaryRows_skip_eq_filter]
  · intro frame img himg
    rw [himg]
    exact ⟨rfl, rfl, rfl⟩

/-- Witness for C8: a zero-size placeholder image produces no Binary
Images row but still resolves a frame pointing at it. -/
theorem binaryImages_size_zero_excluded_witness :
    IPSParser.formatBinaryImages
      { usedImages := some [{ base := some 4096, size := some 0, name := "Placeholder" },
                            { base := some 8192, size := some 256, name := "Real" }] } =
      "\nBinary Images:\n"
      ++ sjoin ([({ base := some 8192, size := some 256, name := "Real" } : Image)].map
          IPSParser.binaryImageRow) ∧
    IPSParser.backtraceFrameImageName
      (imageLookup [{ base := some 4096, size := some 0, name := "Placeholder" },
                    { base := some 8192, size := some 256, name := "Real" }]
        (Frame.mk 0 16 none none).imageIndex) = "Placeholder" := by
  have h := binaryImages_size_zero_excluded
    { usedImages := some [{ base := some 4096, size := some 0, name := "Placeholder" },
                          { base := some 8192, size := some 256, name := "Real" }] }
    [{ base := some 4096, size := some 0, name := "Placeholder" },
     { base := some 8192, size := some 256, name := "Real" }] rfl
  constructor
  · rw [h.1]
    rfl
  · exact (h.2 (Frame.mk 0 16 none none)
      { base := some 4096, size := some 0, name := "Placeholder" } rfl).1

/-! ## Application Specific Information theorems -/

/-- Appending a `div` never splices: it is not a fragment. -/
theorem spliceList_div (c : Option String) (t : Option String) :
    (StructuredIPSParser.createDiv c t).spliceList = [StructuredIPSParser.createDiv c t] := by
  simp [StructuredIPSParser.createDiv, StructuredIPSParser.createElement,
    DomNode.spliceList, DomNode.isFragment, fragmentTag]

/-- `appendChild` of a `div` onto an element appends one child. -/
theorem appendChild_el_div (t : String) (c : Option String) (kids : List DomNode)
    (c2 : Option String) (t2 : Option String) :
    appendChild (DomNode.el t c kids) (StructuredIPSParser.createDiv c2 t2)
      = DomNode.el t c (kids ++ [StructuredIPSParser.createDiv c2 t2]) := by
  simp [appendChild, spliceList_div]

/-- The array-value inner loop of the structured `formatASI` appends a
label/value pair of divs per element. -/
theorem asiArrayFold (key : String) (xs : List String) (t : String)
    (c : Option String) (kids : List DomNode) :
    xs.foldl (fun grid v =>
      appendChild (appendChild grid (StructuredIPSParser.createDiv (some "info-label") (some (key ++ ":"))))
        (StructuredIPSParser.createDiv (some "info-value") (some v))) (.el t c kids)
    = .el t c (kids ++ xs.flatMap (fun v =>
        [StructuredIPSParser.createDiv (some "info-label") (some (key ++ ":")),
         StructuredIPSParser.createDiv (some "info-value") (some v)])) := by
  induction xs generalizing kids with
  | nil => simp
  | cons v rest ih =>
    rw [List.foldl_cons]
    rw [appendChild_el_div, appendChild_el_div, ih]
    simp

/-- The entry loop of the structured `formatASI` flattens to one
label/value pair per scalar entry and per array element. -/
theorem asiGridFold (asi : List (String × AsiValue)) (t : String)
    (c : Option String) (kids : List DomNode) :
    asi.foldl (fun grid kv =>
      match kv.2 with
      | .array xs => xs.foldl (fun grid v =>
          appendChild (appendChild grid (StructuredIPSParser.createDiv (some "info-label") (some (kv.1 ++ ":"))))
            (StructuredIPSParser.createDiv (some "info-value") (some v))) grid
      | .scalar v =>
          appendChild (appendChild grid (StructuredIPSParser.createDiv (some "info-label") (some (kv.1 ++ ":"))))
            (StructuredIPSParser.createDiv (some "info-value") (some v))) (.el t c kids)
    = .el t c (kids ++ asi.flatMap (fun kv =>
        match kv.2 with
        | AsiValue.array xs => xs.flatMap (fun v =>
            [StructuredIPSParser.createDiv (some "info-label") (some (kv.1 ++ ":")),
             StructuredIPSParser.createDiv (some "info-value") (some v)])
        | AsiValue.scalar v =>
            [StructuredIPSParser.createDiv (some "info-label") (some (kv.1 ++ ":")),
             StructuredIPSParser.createDiv (some "info-value") (some v)])) := by
  induction asi generalizing kids with
  | nil => simp
  | cons kv rest ih =>
    rw [List.foldl_cons]
    cases hv : kv.2 with
    | array xs =>
      dsimp only
      rw [asiArrayFold, ih]
      simp [hv]
    | scalar v =>
      dsimp only
      rw [appendChild_el_div, appendChild_el_div, ih]
      simp [hv]

/-- C9 (amended): a scalar `asi` entry renders as `key: value` in both
renderers; an array-valued entry renders one row per element, with the
key label repeated on every row in the DOM renderer but with the bare
element text - no key label - in the plain-text renderer. -/
theorem formatASI_rendering (asi : List (String × AsiValue)) :
    IPSParser.formatASI asi =
      "\nApplication Specific Information:\n"
      ++ sjoin (asi.map (fun kv =>
        match kv.2 with
        | AsiValue.array xs => sjoin (xs.map (fun v => v ++ "\n"))
        | AsiValue.scalar v => kv.1 ++ ": " ++ v ++ "\n")) ∧
    StructuredIPSParser.formatASI asi =
      StructuredIPSParser.sectionShell "Application Specific Information"
        (DomNode.el "div" (some "info-grid")
          (asi.flatMap (fun kv =>
            match kv.2 with
            | AsiValue.array xs => xs.flatMap (fun v =>
                [StructuredIPSParser.createDiv (some "info-label") (some (kv.1 ++ ":")),
                 StructuredIPSParser.createDiv (some "info-value") (some v)])
            | AsiValue.scalar v =>
                [StructuredIPSParser.createDiv (some "info-label") (some (kv.1 ++ ":")),
                 StructuredIPSParser.createDiv (some "info-value") (some v)]))) := by
  refine ⟨rfl, ?_⟩
  simp only [StructuredIPSParser.formatASI]
  rw [show StructuredIPSParser.createDiv (some "info-grid") none
      = DomNode.el "div" (some "info-grid") [] from rfl]
  rw [asiGridFold]
  simp

/-- Counterexample to C9 as stated: the plain-text renderer emits an
array element without its key label - `hello`, not `note: hello` -
while the DOM renderer repeats the key. -/
theorem formatASI_array_rows_lack_key :
    IPSParser.formatASI [("note", AsiValue.array ["hello"])] =
      "\nApplication Specific Information:\nhello\n" ∧
    IPSParser.formatASI [("note", AsiValue.array ["hello"])] ≠
      "\nApplication Specific Information:\nnote: hello\n" ∧
    (StructuredIPSParser.formatASI [("note", AsiValue.array ["hello"])]).textContent =
      "Application Specific Informationnote:hello" :=
  ⟨rfl, by decide, rfl⟩

/-! ## Totality of the plain-text section builder -/

/-- With `usedImages` present the backtrace frame loop cannot fail. -/
theorem renderBacktraceFrames_ok (imgs : List Image) (idx : Nat) (fs : List Frame) :
    ∃ s, IPSParser.renderBacktraceFrames (some imgs) idx fs = .ok s := by
  induction fs generalizing idx with
  | nil => exact ⟨"", rfl⟩
  | cons f rest ih =>
    obtain ⟨s, hs⟩ := ih (idx + 1)
    refine ⟨IPSParser.backtraceFrameLine (imageLookup imgs f.imageIndex) idx f ++ s, ?_⟩
    simp only [IPSParser.renderBacktraceFrames, jsIndexImages]
    rw [hs]

/-- With `usedImages` present the thread frame loop cannot fail. -/
theorem renderThreadFrames_ok (imgs : List Image) (idx : Nat) (fs : List Frame) :
    ∃ s, IPSParser.renderThreadFrames (some imgs) idx fs = .ok s := by
  induction fs generalizing idx with
  | nil => exact ⟨"", rfl⟩
  | cons f rest ih =>
    obtain ⟨s, hs⟩ := ih (idx + 1)
    refine ⟨IPSParser.threadFrameLine (imageLookup imgs f.imageIndex) idx f ++ s, ?_⟩
    simp only [IPSParser.renderThreadFrames, jsIndexImages]
    rw [hs]

/-- With `usedImages` present the thread loop cannot fail. -/
theorem renderThreads_ok (imgs : List Image) (ts : List Thread) :
    ∃ s, IPSParser.renderThreads (some imgs) ts = .ok s := by
  induction ts with
  | nil => exact ⟨"", rfl⟩
  | cons t rest ih =>
    obtain ⟨s, hs⟩ := ih
    have hf : ∃ fp, (match t.frames with
        | some frames =>
          if frames.length > 0 then IPSParser.renderThreadFrames (some imgs) 0 frames
          else Except.ok ""
        | none => Except.ok "") = Except.ok fp := by
      cases hfr : t.frames with
      | none => exact ⟨"", rfl⟩
      | some frames =>
        by_cases hl : frames.length > 0
        · obtain ⟨fp, hfp⟩ := renderThreadFrames_ok imgs 0 frames
          exact ⟨fp, by simp [hl, hfp]⟩
        · exact ⟨"", by simp [hl]⟩
    obtain ⟨fp, hfp⟩ := hf
    refine ⟨IPSParser.threadHeader t ++ fp ++ "\n" ++ s, ?_⟩
    simp only [IPSParser.renderThreads]
    rw [hfp]
    dsimp only
    rw [hs]

/-- With `usedImages` present `formatThreads` cannot fail. -/
theorem formatThreads_ok (r : Report) (imgs : List Image)
    (h : r.usedImages = some imgs) :
    ∃ s, IPSParser.formatThreads r = .ok s := by
  obtain ⟨s, hs⟩ := renderThreads_ok imgs (r.threads.getD [])
  refine ⟨"\n" ++ s ++ (match r.faultingThread with
    | some ft =>
      match (r.threads.getD []).find? (fun t => t.triggered) with
      | some crashedThread =>
        match crashedThread.threadState with
        | some _ => IPSParser.formatThreadState crashedThread ft
        | none => ""
      | none => ""
    | none => ""), ?_⟩
  simp only [IPSParser.formatThreads, h]
  rw [hs]

/-- With `usedImages` present `formatLastExceptionBacktrace` cannot fail. -/
theorem formatLastExceptionBacktrace_ok (r : Report) (imgs : List Image)
    (h : r.usedImages = some imgs) :
    ∃ s, IPSParser.formatLastExceptionBacktrace r = .ok s := by
  cases hb : r.lastExceptionBacktrace with
  | none => exact ⟨"", by simp [IPSParser.formatLastExceptionBacktrace, hb]⟩
  | some bt =>
    by_cases hl : bt.length = 0
    · exact ⟨"", by simp [IPSParser.formatLastExceptionBacktrace, hb, hl]⟩
    · obtain ⟨s, hs⟩ := renderBacktraceFrames_ok imgs 0 bt
      refine ⟨"\n" ++ "Last Exception Backtrace:\n" ++ s, ?_⟩
      simp only [IPSParser.formatLastExceptionBacktrace, hb]
      rw [if_neg hl, h, hs]

/-- Counterexample to C2 as stated: a well-typed `Report` whose only
content is one last-exception backtrace frame and no `usedImages`
field makes the plain-text section builder throw the `TypeError` of
reading an index of `undefined`. -/
theorem formatReport_throws_without_usedImages :
    IPSParser.formatReport
      { lastExceptionBacktrace := some [{ imageIndex := 0, imageOffset := 0 }] } {} =
      .error "Cannot read properties of undefined" := by
  rfl

/-- C2 (amended): the plain-text section builder never throws for a
well-typed `Report` that carries a `usedImages` array (of any
contents, the empty array included); only a report that renders frames
with `usedImages` absent escapes this guarantee. -/
theorem formatReport_total_with_usedImages (r : Report) (m : Metadata) (imgs : List Image)
    (h : r.usedImages = some imgs) :
    (IPSParser.formatReport r m).toOption.isSome = true := by
  obtain ⟨ts, hts⟩ := formatThreads_ok r imgs h
  have hbt : ∃ bp, (match r.lastExceptionBacktrace with
      | some _ =>
        (match IPSParser.formatLastExceptionBacktrace r with
         | .error e => Except.error e
         | .ok s => Except.ok (s ++ "\n"))
      | none => Except.ok "") = Except.ok bp := by
    cases hb : r.lastExceptionBacktrace with
    | none => exact ⟨"", rfl⟩
    | some bt =>
      obtain ⟨s, hs⟩ := formatLastExceptionBacktrace_ok r imgs h
      exact ⟨s ++ "\n", by rw [hs]⟩
  obtain ⟨bp, hbp⟩ := hbt
  simp only [IPSParser.formatReport]
  rw [hbp]
  dsimp only
  rw [hts]
  rfl

/-- Witness for C2: a report with an empty `usedImages` array and a
backtrace frame renders without throwing. -/
theorem formatReport_total_with_usedImages_witness :
    (IPSParser.formatReport
      { usedImages := some []
        lastExceptionBacktrace := some [{ imageIndex := 0, imageOffset := 0 }] } {}).toOption.isSome = true :=
  formatReport_total_with_usedImages
    { usedImages := some []
      lastExceptionBacktrace := some [{ imageIndex := 0, imageOffset := 0 }] } {} [] rfl

/-! ## Section-presence theorems -/

/-- A section shell is a `div` element. -/
theorem sectionShell_shape (t : String) (b : DomNode) :
    StructuredIPSParser.sectionShell t b = DomNode.el "div" (some "crash-section")
      ([] ++ (appendChild (appendChild (StructuredIPSParser.createElement "details" none none)
        (StructuredIPSParser.summaryNode t)) b).spliceList) := rfl

/-- Appending a section shell never splices. -/
theorem sectionShell_splice (t : String) (b : DomNode) :
    (StructuredIPSParser.sectionShell t b).spliceList = [StructuredIPSParser.sectionShell t b] := by
  rw [sectionShell_shape]
  simp [DomNode.spliceList, DomNode.isFragment, fragmentTag]

/-- With `usedImages` present the structured thread frame loop cannot
fail. -/
theorem sRenderThreadFrames_ok (imgs : List Image) (idx : Nat) (fs : List Frame) :
    (StructuredIPSParser.renderThreadFrames (some imgs) idx fs).toOption.isSome = true := by
  induction fs generalizing idx with
  | nil => rfl
  | cons f rest ih =>
    have ih2 := ih (idx + 1)
    simp only [StructuredIPSParser.renderThreadFrames, jsIndexImages]
    cases hres : StructuredIPSParser.renderThreadFrames (some imgs) (idx + 1) rest with
    | error e => rw [hres] at ih2; exact Bool.noConfusion ih2
    | ok tail => rfl

/-- With `usedImages` present a thread item cannot fail. -/
theorem sThreadItemNode_ok (imgs : List Image) (t : Thread) :
    (StructuredIPSParser.threadItemNode (some imgs) t).toOption.isSome = true := by
  simp only [StructuredIPSParser.threadItemNode]
  cases hfr : t.frames with
  | none => rfl
  | some frames =>
    dsimp only
    by_cases hl : frames.length > 0
    · rw [if_pos hl]
      have hok := sRenderThreadFrames_ok imgs 0 frames
      cases hres : StructuredIPSParser.renderThreadFrames (some imgs) 0 frames with
      | error e => rw [hres] at hok; exact Bool.noConfusion hok
      | ok nodes => rfl
    · rw [if_neg hl]
      rfl

/-- With `usedImages` present the thread item loop cannot fail. -/
theorem sRenderThreadItems_ok (imgs : List Image) (ts : List Thread) :
    (StructuredIPSParser.renderThreadItems (some imgs) ts).toOption.isSome = true := by
  induction ts with
  | nil => rfl
  | cons t rest ih =>
    simp only [StructuredIPSParser.renderThreadItems]
    have hitem := sThreadItemNode_ok imgs t
    cases hres : StructuredIPSParser.threadItemNode (some imgs) t with
    | error e => rw [hres] at hitem; exact Bool.noConfusion hitem
    | ok item =>
      cases hres2 : StructuredIPSParser.renderThreadItems (some imgs) rest with
      | error e => rw [hres2] at ih; exact Bool.noConfusion ih
      | ok tail => rfl

/-- With `usedImages` present the structured Threads section is built,
and it is a section shell. -/
theorem sFormatThreads_ok (r : Report) (imgs : List Image)
    (h : r.usedImages = some imgs) :
    ∃ items, StructuredIPSParser.formatThreads r =
      .ok (StructuredIPSParser.sectionShell "Threads"
        (appendNodes (StructuredIPSParser.createDiv (some "thread-list") none) items)) := by
  have hok := sRenderThreadItems_ok imgs (r.threads.getD [])
  cases hres : StructuredIPSParser.renderThreadItems (some imgs) (r.threads.getD []) with
  | error e => rw [hres] at hok; exact Bool.noConfusion hok
  | ok items =>
    refine ⟨items, ?_⟩
    simp only [StructuredIPSParser.formatThreads, h]
    rw [hres]

/-- Counterexample to C7 as stated: a report with a thread frame, no
`usedImages`, and none of the optional sections set produces no
sections at all - both builders throw instead. -/
theorem formatReport_sections_missing_on_throw :
    IPSParser.formatReport
      { threads := some [{ id := 0, frames := some [{ imageIndex := 0, imageOffset := 0 }] }] } {} =
      .error "Cannot read properties of undefined" ∧
    StructuredIPSParser.formatReport
      { threads := some [{ id := 0, frames := some [{ imageIndex := 0, imageOffset := 0 }] }] } =
      .error "Cannot read properties of undefined" :=
  ⟨rfl, rfl⟩

/-- C7 (amended): for a `Report` with none of `asi`,
`lastExceptionBacktrace`, `extMods`, `vmSummary`, `filteredLog` set -
and with `usedImages` present, without which a report with frames
renders nothing (see the counterexample) - both builders produce
exactly the four always-present sections in the fixed order: Process
Information, Exception Information, Threads, Binary Images. -/
theorem formatReport_base_sections (r : Report) (m : Metadata) (imgs : List Image)
    (h : r.usedImages = some imgs) (hasi : r.asi = none)
    (hleb : r.lastExceptionBacktrace = none) (hext : r.extMods = none)
    (hvm : r.vmSummary = none) (hlog : r.filteredLog = none) :
    IPSParser.formatReport r m = (IPSParser.formatThreads r).map (fun threadsPart =>
      IPSParser.formatHeader r m ++ "\n" ++ IPSParser.formatException r ++ "\n"
      ++ threadsPart ++ "\n" ++ IPSParser.formatBinaryImages r ++ "\n") ∧
    (IPSParser.formatThreads r).toOption.isSome = true ∧
    StructuredIPSParser.formatReport r = (StructuredIPSParser.formatThreads r).map (fun threadsSection =>
      DomNode.el fragmentTag none
        [StructuredIPSParser.formatProcessInfo r, StructuredIPSParser.formatException r,
         threadsSection, StructuredIPSParser.formatBinaryImages r]) ∧
    (StructuredIPSParser.formatThreads r).toOption.isSome = true := by
  obtain ⟨ts, hts⟩ := formatThreads_ok r imgs h
  obtain ⟨items, hthreads⟩ := sFormatThreads_ok r imgs h
  refine ⟨?_, by rw [hts]; rfl, ?_, by rw [hthreads]; rfl⟩
  · simp only [IPSParser.formatReport, hasi, hleb]
    rw [hts]
    simp [hext, hvm, hlog, ifStr, Except.map, String.append_assoc,
      String.append_empty, String.empty_append]
  · simp only [StructuredIPSParser.formatReport, hasi, hleb]
    rw [hthreads]
    simp only [StructuredIPSParser.formatExtMods, hext, hvm, hlog, strTruthy]
    simp only [StructuredIPSParser.formatProcessInfo, StructuredIPSParser.formatException,
      StructuredIPSParser.formatBinaryImages, StructuredIPSParser.createFragment, appendChild,
      sectionShell_splice, Except.map]
    simp

/-- Witness for C7: a report holding only an empty `usedImages` array
yields exactly the four always-present sections. -/
theorem formatReport_base_sections_witness :
    IPSParser.formatReport { usedImages := some [] } {} =
      (IPSParser.formatThreads { usedImages := some [] }).map (fun threadsPart =>
        IPSParser.formatHeader { usedImages := some [] } {} ++ "\n"
        ++ IPSParser.formatException { usedImages := some [] } ++ "\n"
        ++ threadsPart ++ "\n" ++ IPSParser.formatBinaryImages { usedImages := some [] } ++ "\n") ∧
    (IPSParser.formatThreads { usedImages := some [] }).toOption.isSome = true ∧
    StructuredIPSParser.formatReport { usedImages := some [] } =
      (StructuredIPSParser.formatThreads { usedImages := some [] }).map (fun threadsSection =>
        DomNode.el fragmentTag none
          [StructuredIPSParser.formatProcessInfo { usedImages := some [] },
           StructuredIPSParser.formatException { usedImages := some [] },
           threadsSection, StructuredIPSParser.formatBinaryImages { usedImages := some [] }]) ∧
    (StructuredIPSParser.formatThreads { usedImages := some [] }).toOption.isSome = true :=
  formatReport_base_sections { usedImages := some [] } {} [] rfl rfl rfl rfl rfl rfl
